import Mathlib

/-!
Verification of the Space-Engine N-body simulation core.

The Python source (src/vector3.py, src/celestial_body.py, src/particles.py,
src/physics.py) is shallowly embedded below.  Conventions:

* Python floats are modelled as exact real numbers (`ℝ`); float arithmetic
  is idealised as exact real arithmetic.
* `Vector3.__truediv__` has an explicit `raise ValueError` branch, so it is
  modelled as `Except String Vector3`; functions reaching it become monadic.
  Plain scalar float division is modelled with Lean's total real division
  (the claims guard the relevant denominators with positivity hypotheses).
* Python object identity (used by `body in list` membership tests, since
  `CelestialBody` defines no `__eq__`) is modelled by an explicit `oid`
  field; distinct live objects carry distinct `oid`s.
* `random.randint` / `random.uniform` draws are passed in explicitly as an
  oracle structure `RandomDraws`; its `Valid` predicate states exactly the
  range guarantees of the Python functions.
* Visual-only state (orbit trails, selection flags, stdout prints) is not
  modelled; it never feeds back into the simulation state.
-/

noncomputable section

namespace SpaceEngine

/-- Embeds `Vector3` from src/vector3.py: three double-precision components. -/
@[ext]
structure Vector3 where
  x : ℝ
  y : ℝ
  z : ℝ

namespace Vector3

/-- `Vector3(0, 0, 0)`. -/
def zero : Vector3 := ⟨0, 0, 0⟩

/-- `__add__`. -/
def add (a b : Vector3) : Vector3 := ⟨a.x + b.x, a.y + b.y, a.z + b.z⟩

/-- `__sub__`. -/
def sub (a b : Vector3) : Vector3 := ⟨a.x - b.x, a.y - b.y, a.z - b.z⟩

/-- `__mul__` (and `__rmul__`): scalar multiplication. -/
def mul (a : Vector3) (s : ℝ) : Vector3 := ⟨a.x * s, a.y * s, a.z * s⟩

/-- `__neg__`. -/
def neg (a : Vector3) : Vector3 := ⟨-a.x, -a.y, -a.z⟩

/-- Componentwise scalar division (the arithmetic part of `__truediv__`). -/
def divScalar (a : Vector3) (s : ℝ) : Vector3 := ⟨a.x / s, a.y / s, a.z / s⟩

/-- `__truediv__` from src/vector3.py: raises `ValueError` on a zero scalar,
otherwise divides componentwise. -/
def truediv (a : Vector3) (s : ℝ) : Except String Vector3 :=
  if s = 0 then .error "Cannot divide by zero" else .ok (a.divScalar s)

/-- `magnitude` property: `sqrt(x**2 + y**2 + z**2)`. -/
def magnitude (a : Vector3) : ℝ := Real.sqrt (a.x ^ 2 + a.y ^ 2 + a.z ^ 2)

/-- `magnitude_squared` property. -/
def magnitude_squared (a : Vector3) : ℝ := a.x ^ 2 + a.y ^ 2 + a.z ^ 2

/-- `normalize` from src/vector3.py: returns the zero vector when the
magnitude is zero, otherwise delegates to `__truediv__`. -/
def normalize (a : Vector3) : Except String Vector3 :=
  let mag := a.magnitude
  if mag = 0 then .ok zero else a.truediv mag

/-- `dot`. -/
def dot (a b : Vector3) : ℝ := a.x * b.x + a.y * b.y + a.z * b.z

/-- `distance_to`. -/
def distance_to (a b : Vector3) : ℝ := (a.sub b).magnitude

end Vector3

instance : Zero Vector3 := ⟨Vector3.zero⟩
instance : Add Vector3 := ⟨Vector3.add⟩
instance : Neg Vector3 := ⟨Vector3.neg⟩

instance : AddCommGroup Vector3 where
  add_assoc a b c := by
    show Vector3.add (Vector3.add a b) c = Vector3.add a (Vector3.add b c)
    ext <;> simp [Vector3.add] <;> ring
  zero_add a := by
    show Vector3.add Vector3.zero a = a
    ext <;> simp [Vector3.add, Vector3.zero]
  add_zero a := by
    show Vector3.add a Vector3.zero = a
    ext <;> simp [Vector3.add, Vector3.zero]
  add_comm a b := by
    show Vector3.add a b = Vector3.add b a
    ext <;> simp [Vector3.add] <;> ring
  neg_add_cancel a := by
    show Vector3.add (Vector3.neg a) a = Vector3.zero
    ext <;> simp [Vector3.add, Vector3.neg, Vector3.zero]
  nsmul := nsmulRec
  zsmul := zsmulRec

/-! ## Celestial bodies (src/celestial_body.py) -/

/-- Embeds `CelestialBody.__init__` (src/celestial_body.py lines 18-60): the
constructor performs plain field assignments with no validation whatsoever.
`oid` models Python object identity (see file header); visual-only trail and
selection fields are omitted. -/
structure CelestialBody where
  oid : ℕ
  name : String
  mass : ℝ
  radius : ℝ
  position : Vector3
  velocity : Vector3
  color : ℝ × ℝ × ℝ
  is_star : Bool
  acceleration : Vector3

namespace CelestialBody

/-- Gravitational constant `CelestialBody.G = 100.0` (scaled for visual units). -/
def G : ℝ := 100.0

/-- `CelestialBody.__init__`: every input is accepted; the acceleration
accumulator starts at zero.  There is no domain check of any kind. -/
def init (oid : ℕ) (name : String) (mass radius : ℝ) (position velocity : Vector3)
    (color : ℝ × ℝ × ℝ) (is_star : Bool) : CelestialBody :=
  { oid := oid, name := name, mass := mass, radius := radius,
    position := position, velocity := velocity, color := color,
    is_star := is_star, acceleration := Vector3.zero }

/-- `apply_force`: `acceleration += force / mass` via `Vector3.__truediv__`
(which raises when `mass == 0`). -/
def apply_force (b : CelestialBody) (force : Vector3) : Except String CelestialBody :=
  (force.truediv b.mass).map fun d => { b with acceleration := b.acceleration + d }

/-- `reset_acceleration`. -/
def reset_acceleration (b : CelestialBody) : CelestialBody :=
  { b with acceleration := Vector3.zero }

/-- `kinetic_energy`: `0.5 * m * |v|²`. -/
def kinetic_energy (b : CelestialBody) : ℝ :=
  0.5 * b.mass * b.velocity.magnitude_squared

/-- `potential_energy_with`: `-G·m₁·m₂/d`, guarded to `0` at zero distance. -/
def potential_energy_with (b o : CelestialBody) : ℝ :=
  let distance := b.position.distance_to o.position
  if distance = 0 then 0 else -G * b.mass * o.mass / distance

end CelestialBody

/-! ## Particle system (src/particles.py) -/

/-- Embeds `Particle` from src/particles.py. -/
structure Particle where
  position : Vector3
  velocity : Vector3
  color : ℝ × ℝ × ℝ
  size : ℝ
  lifetime : ℝ
  max_lifetime : ℝ
  fade : Bool
  particle_type : String
  alive : Bool

namespace Particle

/-- `Particle.__init__`: `max_lifetime` starts equal to `lifetime`, the
particle starts alive. -/
def init (position velocity : Vector3) (color : ℝ × ℝ × ℝ)
    (size lifetime : ℝ) (particle_type : String) : Particle :=
  { position := position, velocity := velocity, color := color, size := size,
    lifetime := lifetime, max_lifetime := lifetime, fade := true,
    particle_type := particle_type, alive := true }

/-- `Particle.update`: dead particles are untouched; live ones drift, get
dragged by the fixed factor 0.995, lose lifetime and die at `lifetime ≤ 0`. -/
def update (p : Particle) (dt : ℝ) : Particle :=
  if p.alive = false then p
  else
    let position := p.position + p.velocity.mul dt
    let velocity := p.velocity.mul 0.995
    let lifetime := p.lifetime - dt
    { p with position := position, velocity := velocity, lifetime := lifetime,
             alive := if lifetime ≤ 0 then false else true }

end Particle

/-- Embeds `ParticleSystem` from src/particles.py. -/
structure ParticleSystem where
  particles : List Particle
  max_particles : ℕ

namespace ParticleSystem

/-- `ParticleSystem.__init__`. -/
def init (max_particles : ℕ) : ParticleSystem :=
  { particles := [], max_particles := max_particles }

/-- `add_particle`: appends only while strictly below capacity. -/
def add_particle (ps : ParticleSystem) (p : Particle) : ParticleSystem :=
  if ps.particles.length < ps.max_particles then
    { ps with particles := ps.particles ++ [p] }
  else ps

/-- One iteration of the `create_explosion` loop (src/particles.py lines
78-112); `u` is the oracle of `random.uniform` draws for this particle:
`u 0 = theta`, `u 1 = phi`, `u 2` = speed factor, `u 3` = colour factor,
`u 4` = size factor, `u 5` = lifetime factor. -/
def explosionParticle (position : Vector3) (color : ℝ × ℝ × ℝ)
    (speed size lifetime : ℝ) (u : ℕ → ℝ) : Particle :=
  let theta := u 0
  let phi := u 1
  let direction : Vector3 :=
    ⟨Real.sin phi * Real.cos theta, Real.sin phi * Real.sin theta, Real.cos phi⟩
  let velocity := direction.mul (speed * u 2)
  let cv := u 3
  let particle_color := (min 1.0 (color.1 * cv), min 1.0 (color.2.1 * cv),
    min 1.0 (color.2.2 * cv))
  Particle.init position velocity particle_color (size * u 4) (lifetime * u 5)
    "explosion"

/-- The `for _ in range(num_particles)` loop of `create_explosion`: each
iteration first checks the capacity and breaks once it is reached, then
appends one particle. -/
def create_explosion (ps : ParticleSystem) (position : Vector3)
    (color : ℝ × ℝ × ℝ) (num_particles : ℕ) (speed size lifetime : ℝ)
    (u : ℕ → ℝ) : ParticleSystem :=
  match num_particles with
  | 0 => ps
  | n + 1 =>
    if ps.particles.length ≥ ps.max_particles then ps
    else
      let p := explosionParticle position color speed size lifetime u
      create_explosion { ps with particles := ps.particles ++ [p] }
        position color n speed size lifetime (fun k => u (k + 6))

/-- One iteration of the `create_debris` loop; fallible because it calls
`Vector3.normalize` (whose error branch is in fact unreachable, see the C10
theorem).  Draw oracle: `u 0..2` = offset components, `u 3` = velocity
fraction, `u 4` = size factor, `u 5` = lifetime. -/
def debrisParticle (position velocity : Vector3) (color : ℝ × ℝ × ℝ)
    (spread size : ℝ) (u : ℕ → ℝ) : Except String Particle := do
  let offdir ← (Vector3.mk (u 0) (u 1) (u 2)).normalize
  let offset := offdir.mul spread
  let particle_vel := velocity.mul (u 3) + offset
  .ok (Particle.init position particle_vel color (size * u 4) (u 5) "debris")

/-- The `create_debris` loop with its capacity break. -/
def create_debris (ps : ParticleSystem) (position velocity : Vector3)
    (color : ℝ × ℝ × ℝ) (num_particles : ℕ) (spread size : ℝ)
    (u : ℕ → ℝ) : Except String ParticleSystem :=
  match num_particles with
  | 0 => .ok ps
  | n + 1 =>
    if ps.particles.length ≥ ps.max_particles then .ok ps
    else do
      let p ← debrisParticle position velocity color spread size u
      create_debris { ps with particles := ps.particles ++ [p] }
        position velocity color n spread size (fun k => u (k + 6))

/-- One iteration of the `create_shockwave` loop; `u 0 = theta`, `u 1 = phi`. -/
def shockwaveParticle (position : Vector3) (color : ℝ × ℝ × ℝ) (radius : ℝ)
    (u : ℕ → ℝ) : Particle :=
  let theta := u 0
  let phi := u 1
  let direction : Vector3 :=
    ⟨Real.sin phi * Real.cos theta, Real.sin phi * Real.sin theta, Real.cos phi⟩
  Particle.init position (direction.mul (radius * 2)) color 4.0 0.5 "shockwave"

/-- The `create_shockwave` loop with its capacity break. -/
def create_shockwave (ps : ParticleSystem) (position : Vector3)
    (color : ℝ × ℝ × ℝ) (radius : ℝ) (num_particles : ℕ)
    (u : ℕ → ℝ) : ParticleSystem :=
  match num_particles with
  | 0 => ps
  | n + 1 =>
    if ps.particles.length ≥ ps.max_particles then ps
    else
      create_shockwave
        { ps with particles := ps.particles ++ [shockwaveParticle position color radius u] }
        position color radius n (fun k => u (k + 2))

/-- `create_fire_trail`: a single particle, dropped silently at capacity.
Draws: `u 0..2` = velocity jitter, `u 3` = size, `u 4` = lifetime. -/
def create_fire_trail (ps : ParticleSystem) (position velocity : Vector3)
    (color : ℝ × ℝ × ℝ) (u : ℕ → ℝ) : ParticleSystem :=
  if ps.particles.length ≥ ps.max_particles then ps
  else
    let trail_vel := velocity.mul (-0.1) + Vector3.mk (u 0) (u 1) (u 2)
    { ps with particles :=
        ps.particles ++ [Particle.init position trail_vel color (u 3) (u 4) "fire"] }

/-- `ParticleSystem.update`: update every particle, then drop the dead ones. -/
def update (ps : ParticleSystem) (dt : ℝ) : ParticleSystem :=
  { ps with particles := (ps.particles.map (Particle.update · dt)).filter (·.alive) }

/-- `ParticleSystem.clear`. -/
def clear (ps : ParticleSystem) : ParticleSystem := { ps with particles := [] }

end ParticleSystem

/-! ## Gravitational force pass (src/physics.py lines 122-167) -/

/-- `PhysicsEngine.min_softening = 0.1`. -/
def min_softening : ℝ := 0.1

/-- `PhysicsEngine.base_substeps = 8`. -/
def base_substeps : ℕ := 8

/-- `PhysicsEngine.max_substep_dt = 0.02`. -/
def max_substep_dt : ℝ := 0.02

/-- The ordered pairs `(i, j)` with `i < j < n`, in the iteration order of
the two nested `for` loops of `compute_gravitational_forces` and
`detect_collisions`. -/
def pairIndices (n : ℕ) : List (ℕ × ℕ) :=
  (List.range n).flatMap fun i =>
    ((List.range n).filter fun j => i < j).map fun j => (i, j)

/-- The local variable `force` of `compute_gravitational_forces`: softened
inverse-square magnitude along the normalised `i → j` direction, the zero
vector when the two centres coincide. -/
def pair_force (bi bj : CelestialBody) : Vector3 :=
  let direction := bj.position.sub bi.position
  let distance := direction.magnitude
  let min_dist := (bi.radius + bj.radius) * 0.5
  let softening := max min_softening (min_dist * 0.1)
  let softened_dist := max distance softening
  let force_magnitude :=
    CelestialBody.G * bi.mass * bj.mass / (softened_dist * softened_dist)
  if 0 < distance then direction.mul (force_magnitude / distance) else Vector3.zero

/-- One iteration of the pair loop of `compute_gravitational_forces`:
overlapping pairs (`distance < min_dist`) are skipped entirely; otherwise
`force` is applied to body `i` and its exact negation to body `j`. -/
def gravPairStep (bs : List CelestialBody) (p : ℕ × ℕ) :
    Except String (List CelestialBody) :=
  match bs[p.1]?, bs[p.2]? with
  | some bi, some bj =>
    if (bj.position.sub bi.position).magnitude < (bi.radius + bj.radius) * 0.5 then
      .ok bs
    else do
      let f := pair_force bi bj
      let bi' ← bi.apply_force f
      let bj' ← bj.apply_force f.neg
      .ok ((bs.set p.1 bi').set p.2 bj')
  | _, _ => .ok bs

/-- `compute_gravitational_forces`: reset every acceleration, then run the
pair loop. -/
def compute_gravitational_forces (bs : List CelestialBody) :
    Except String (List CelestialBody) :=
  (pairIndices bs.length).foldlM gravPairStep
    (bs.map CelestialBody.reset_acceleration)

/-- Net rate of momentum change `Σ mass · acceleration` over a roster; one
force pass makes the velocity of body `k` change at rate `acceleration_k`,
so this sum is the net momentum change per unit time contributed by the
pass. -/
def momentum_rate (bs : List CelestialBody) : Vector3 :=
  (bs.map fun b => b.acceleration.mul b.mass).sum

/-! Definitions following the spec's words (spec.md §4.1), for the C2
refinement: the spec-side effective distance and force magnitude. -/

/-- Following the spec's words: `minDist = (radius_i + radius_j) × 0.5`. -/
def spec_min_dist (bi bj : CelestialBody) : ℝ := (bi.radius + bj.radius) * 0.5

/-- Following the spec's words: `effectiveDistance = max(distance,
max(minSofteningConstant, minDist × 0.1))`. -/
def spec_effective_distance (bi bj : CelestialBody) : ℝ :=
  max ((bj.position.sub bi.position).magnitude)
    (max min_softening (spec_min_dist bi bj * 0.1))

/-- Following the spec's words: `forceMagnitude = G × mass_i × mass_j /
effectiveDistance²`. -/
def spec_force_magnitude (bi bj : CelestialBody) : ℝ :=
  CelestialBody.G * bi.mass * bj.mass / (spec_effective_distance bi bj) ^ 2

/-! ## Collision classification (src/physics.py lines 11-66) -/

/-- Python `str.lower()`. -/
def pyLower (s : String) : String := String.mk (s.toList.map Char.toLower)

/-- Contiguous-sublist test on character lists (Python `in` on strings). -/
def charsContain : List Char → List Char → Bool
  | sub, [] => sub.isEmpty
  | sub, c :: rest => sub.isPrefixOf (c :: rest) || charsContain sub rest

/-- Python `sub in s.lower()` for an (already lowercase) literal `sub`. -/
def nameContains (s sub : String) : Bool :=
  charsContain sub.toList (pyLower s).toList

/-- Python `int(x)`: truncation toward zero. -/
def pyInt (q : ℝ) : ℤ := if 0 ≤ q then ⌊q⌋ else ⌈q⌉

/-- `CollisionEvent.__init__`'s classification chain (src/physics.py lines
20-66), written as the equivalent first-match-wins if-chain. -/
def collision_type_of (body1 body2 : CelestialBody) (impact_velocity : ℝ) : String :=
  let body1_is_black_hole := nameContains body1.name "black hole"
  let body2_is_black_hole := nameContains body2.name "black hole"
  let body1_is_neutron := nameContains body1.name "neutron"
  let body2_is_neutron := nameContains body2.name "neutron"
  if body1_is_black_hole = true ∧ body2_is_black_hole = false then "black_hole_consume"
  else if body2_is_black_hole = true ∧ body1_is_black_hole = false then "black_hole_consume"
  else if body1_is_black_hole = true ∧ body2_is_black_hole = true then "black_hole_merge"
  else if body1_is_neutron = true ∧ body2.is_star = false ∧
      body2.mass < body1.mass * 0.5 then "neutron_consume"
  else if body2_is_neutron = true ∧ body1.is_star = false ∧
      body1.mass < body2.mass * 0.5 then "neutron_consume"
  else if body1_is_neutron = true ∨ body2_is_neutron = true then "merge"
  else if (body1.is_star = true ∧ body1_is_neutron = false) ∨
      (body2.is_star = true ∧ body2_is_neutron = false) then "merge"
  else
    let mass_ratio := max body1.mass body2.mass / max 0.001 (min body1.mass body2.mass)
    if 50 < impact_velocity then "explosion"
    else if 20 < impact_velocity ∧ mass_ratio < 5 then "fragment"
    else "merge"

/-- Embeds `CollisionEvent`. -/
structure CollisionEvent where
  body1 : CelestialBody
  body2 : CelestialBody
  impact_velocity : ℝ
  position : Vector3
  collision_type : String

/-- `CollisionEvent.__init__`: stores the participants and classifies. -/
def CollisionEvent.init (body1 body2 : CelestialBody) (impact_velocity : ℝ)
    (position : Vector3) : CollisionEvent :=
  ⟨body1, body2, impact_velocity, position,
    collision_type_of body1 body2 impact_velocity⟩

/-- Oracle for the `random` module: `randint k a b` / `uniform k a b` is the
`k`-th draw of `random.randint(a, b)` / `random.uniform(a, b)` inside one
handler call; `pRand` feeds the particle-emission draws. -/
structure RandomDraws where
  randint : ℕ → ℕ → ℕ → ℕ
  uniform : ℕ → ℝ → ℝ → ℝ
  pRand : ℕ → ℝ

/-- The range guarantees of `random.randint` (inclusive both ends) and
`random.uniform`. -/
def RandomDraws.Valid (r : RandomDraws) : Prop :=
  (∀ k a b, a ≤ b → a ≤ r.randint k a b ∧ r.randint k a b ≤ b) ∧
  (∀ k (a b : ℝ), a ≤ b → a ≤ r.uniform k a b ∧ r.uniform k a b ≤ b)

/-- The fully deterministic oracle returning the lower end of every range;
used to instantiate witnesses. -/
def lowDraws : RandomDraws :=
  { randint := fun _ a _ => a, uniform := fun _ a _ => a, pRand := fun _ => 0 }

theorem lowDraws_valid : lowDraws.Valid :=
  ⟨fun _ _ _ h => ⟨le_refl _, h⟩, fun _ _ _ h => ⟨le_refl _, h⟩⟩

/-! ## Collision resolution handlers (src/physics.py lines 237-660)

Each `_handle_*` method of the source mutates `self._bodies_to_add` and
`self.particles`; the embeddings below return the list of scheduled bodies
(in append order) together with the updated particle system, and
`handle_collision` performs the appends.  Newly constructed bodies get
`oid 0`; the identity of scheduled bodies is never consulted within the
modelled frame.  `print` calls are ignored as I/O. -/

/-- `SUPERNOVA_MASS_THRESHOLD = 4000.0` (src/physics.py line 379). -/
def SUPERNOVA_MASS_THRESHOLD : ℝ := 4000.0

/-- `BLACK_HOLE_MASS_THRESHOLD = 6000.0` (src/physics.py lines 380, 413). -/
def BLACK_HOLE_MASS_THRESHOLD : ℝ := 6000.0

/-- `_handle_black_hole_consume`. -/
def handle_black_hole_consume (r : RandomDraws) (e : CollisionEvent)
    (ps : ParticleSystem) : Except String (List CelestialBody × ParticleSystem) := do
  let body1 := e.body1
  let body2 := e.body2
  let black_hole := if nameContains body1.name "black hole" then body1 else body2
  let consumed := if nameContains body1.name "black hole" then body2 else body1
  let new_mass := black_hole.mass + consumed.mass
  let new_radius := black_hole.radius * (1 + 0.05 * (consumed.mass / black_hole.mass))
  let new_velocity ←
    (black_hole.velocity.mul black_hole.mass + consumed.velocity.mul consumed.mass).truediv
      new_mass
  let enhanced := CelestialBody.init 0 black_hole.name new_mass new_radius
    black_hole.position new_velocity (0.05, 0.0, 0.1) true
  let ps' ← ps.create_debris black_hole.position new_velocity (0.8, 0.4, 1.0)
    80 30.0 3.0 r.pRand
  .ok ([enhanced], ps')

/-- `_handle_black_hole_merge`. -/
def handle_black_hole_merge (r : RandomDraws) (e : CollisionEvent)
    (ps : ParticleSystem) : Except String (List CelestialBody × ParticleSystem) := do
  let body1 := e.body1
  let body2 := e.body2
  let total_mass := body1.mass + body2.mass
  let new_velocity ←
    (body1.velocity.mul body1.mass + body2.velocity.mul body2.mass).truediv total_mass
  let new_radius := max body1.radius body2.radius * 1.4
  let merged := CelestialBody.init 0 "Supermassive Black Hole" (total_mass * 0.95)
    new_radius e.position new_velocity (0.02, 0.0, 0.05) true
  let ps' := (List.range 4).foldl
    (fun acc i => acc.create_shockwave e.position (0.5, 0.2, 0.8)
      (150.0 + (i : ℝ) * 50) 100 (fun k => r.pRand (200 * i + k))) ps
  .ok ([merged], ps')

/-- `_handle_neutron_consume`. -/
def handle_neutron_consume (r : RandomDraws) (e : CollisionEvent)
    (ps : ParticleSystem) : Except String (List CelestialBody × ParticleSystem) := do
  let body1 := e.body1
  let body2 := e.body2
  let neutron := if nameContains body1.name "neutron" then body1 else body2
  let consumed := if nameContains body1.name "neutron" then body2 else body1
  let new_mass := neutron.mass + consumed.mass
  let new_radius := neutron.radius * (1 + 0.02 * (consumed.mass / neutron.mass))
  let new_velocity ←
    (neutron.velocity.mul neutron.mass + consumed.velocity.mul consumed.mass).truediv
      new_mass
  let enhanced := CelestialBody.init 0 neutron.name new_mass new_radius
    neutron.position new_velocity (0.8, 0.95, 1.0) true
  let ps' := ps.create_explosion neutron.position (0.7, 0.9, 1.0) 60 80.0 3.0 1.5 r.pRand
  .ok ([enhanced], ps')

/-- The fragment ejection loop of `_handle_supernova` (lines 476-498):
`cc` is `self.collision_count`, `nf` is the `randint(3, 6)` draw. -/
def supernovaFragments (r : RandomDraws) (cc nf : ℕ) (total_mass : ℝ)
    (position velocity : Vector3) : List CelestialBody :=
  (List.range nf).map fun (i : ℕ) =>
    let angle := 2 * Real.pi * (i : ℝ) / (nf : ℝ) + r.uniform (6 * i) (-0.3) 0.3
    let elevation := r.uniform (6 * i + 1) (-0.5) 0.5
    let direction : Vector3 :=
      ⟨Real.cos angle * Real.cos elevation, Real.sin elevation,
        Real.sin angle * Real.cos elevation⟩
    let frag_velocity := velocity + direction.mul (r.uniform (6 * i + 2) 80 150)
    let frag_position := position + direction.mul 50
    CelestialBody.init 0 ("Nebula_" ++ toString cc ++ "_" ++ toString i)
      (total_mass * 0.1 / (nf : ℝ)) (r.uniform (6 * i + 3) 3 8)
      frag_position frag_velocity
      (r.uniform (6 * i + 4) 0.5 1.0, r.uniform (6 * i + 5) 0.3 0.7,
        r.uniform (6 * i + 6) 0.5 1.0) false

/-- `_handle_supernova` (src/physics.py lines 410-498): particle bursts,
then exactly one remnant (Black Hole above the secondary threshold, else
Neutron Star), then the ejected nebula fragments. -/
def handle_supernova (r : RandomDraws) (cc : ℕ) (total_mass : ℝ)
    (position velocity : Vector3) (ps : ParticleSystem) :
    Except String (List CelestialBody × ParticleSystem) := do
  let ps1 := ps.create_explosion position (1.0, 0.9, 0.5) 800 150.0 8.0 5.0 r.pRand
  let ps2 := (List.range 3).foldl
    (fun acc i => acc.create_shockwave position (1.0, 0.7 - (i : ℝ) * 0.2, 0.3)
      (100.0 + (i : ℝ) * 50) 150 (fun k => r.pRand (5000 + 400 * i + k))) ps1
  let ps3 ← ps2.create_debris position velocity (0.8, 0.4, 0.2) 200 100.0 4.0
    (fun k => r.pRand (7000 + k))
  let remnant :=
    if BLACK_HOLE_MASS_THRESHOLD < total_mass then
      CelestialBody.init 0 "Black Hole" (total_mass * 0.4) 8 position velocity
        (0.1, 0.0, 0.1) true
    else
      CelestialBody.init 0 "Neutron Star" (total_mass * 0.3) 4 position velocity
        (0.7, 0.9, 1.0) true
  let num_fragments := r.randint 0 3 6
  .ok (remnant :: supernovaFragments r cc num_fragments total_mass position velocity, ps3)

/-- `_handle_merge` (src/physics.py lines 349-408): momentum-conserving
merge, delegating to `_handle_supernova` when the product is a
non-exotic star above the supernova threshold. -/
def handle_merge (r : RandomDraws) (cc : ℕ) (e : CollisionEvent)
    (ps : ParticleSystem) : Except String (List CelestialBody × ParticleSystem) := do
  let body1 := e.body1
  let body2 := e.body2
  let total_mass := body1.mass + body2.mass
  let new_velocity ←
    (body1.velocity.mul body1.mass + body2.velocity.mul body2.mass).truediv total_mass
  let new_position := e.position
  let new_volume := (4 / 3) * Real.pi * (body1.radius ^ 3 + body2.radius ^ 3)
  let new_radius := (new_volume * 3 / (4 * Real.pi)) ^ ((1 : ℝ) / 3)
  let cr := (body1.color.1 * body1.mass + body2.color.1 * body2.mass) / total_mass
  let cg := (body1.color.2.1 * body1.mass + body2.color.2.1 * body2.mass) / total_mass
  let cb := (body1.color.2.2 * body1.mass + body2.color.2.2 * body2.mass) / total_mass
  let new_color := (min 1.0 cr, min 1.0 cg, min 1.0 cb)
  let body1_is_exotic :=
    nameContains body1.name "black hole" || nameContains body1.name "neutron"
  let body2_is_exotic :=
    nameContains body2.name "black hole" || nameContains body2.name "neutron"
  let is_star := body1.is_star || body2.is_star
  if is_star = true ∧ body1_is_exotic = false ∧ body2_is_exotic = false ∧
      SUPERNOVA_MASS_THRESHOLD < total_mass then
    handle_supernova r cc total_mass new_position new_velocity ps
  else
    let larger := if body2.mass < body1.mass then body1 else body2
    let merged := CelestialBody.init 0 (larger.name ++ "+") total_mass new_radius
      new_position new_velocity new_color is_star
    let ps' := ps.create_explosion e.position new_color 30 20.0 2.0 1.0 r.pRand
    .ok ([merged], ps')

/-- The fragment loop of `_handle_explosion` (lines 550-576), including its
per-iteration `fragment_mass < 0.001` break check. -/
def explosionFragmentsAux (r : RandomDraws) (cc : ℕ)
    (fragment_mass impact_velocity radius_sum : ℝ)
    (combined_velocity position : Vector3) : ℕ → ℕ → List CelestialBody
  | _, 0 => []
  | i, n + 1 =>
    if fragment_mass < 0.001 then []
    else
      let angle := r.uniform (2 * i) 0 (2 * Real.pi)
      let elevation := r.uniform (2 * i + 1) (-0.5) 0.5
      let direction : Vector3 :=
        ⟨Real.cos angle * Real.cos elevation, Real.sin elevation,
          Real.sin angle * Real.cos elevation⟩
      let frag_velocity := combined_velocity + direction.mul (impact_velocity * 0.5)
      let frag_position := position + direction.mul radius_sum
      CelestialBody.init 0 ("Fragment_" ++ toString cc ++ "_" ++ toString i)
        fragment_mass (max 1.0 (radius_sum * 0.1)) frag_position frag_velocity
        (0, 0, 0) false
      :: explosionFragmentsAux r cc fragment_mass impact_velocity radius_sum
        combined_velocity position (i + 1) n

/-- `_handle_explosion` (src/physics.py lines 500-576): both parents are
destroyed; only small fragment bodies may be scheduled. -/
def handle_explosion (r : RandomDraws) (cc : ℕ) (e : CollisionEvent)
    (ps : ParticleSystem) : Except String (List CelestialBody × ParticleSystem) := do
  let body1 := e.body1
  let body2 := e.body2
  let total_mass := body1.mass + body2.mass
  let combined_velocity := (body1.velocity + body2.velocity).mul 0.5
  let avg_color := ((body1.color.1 + body2.color.1) / 2,
    (body1.color.2.1 + body2.color.2.1) / 2, (body1.color.2.2 + body2.color.2.2) / 2)
  let explosion_size := (body1.radius + body2.radius) * 2
  let num_particles := (pyInt (min 500 (total_mass * 50))).toNat
  let ps1 := ps.create_explosion e.position (1.0, 0.8, 0.3) num_particles
    (e.impact_velocity * 2) (explosion_size * 0.1) 3.0 r.pRand
  let ps2 := ps1.create_shockwave e.position (1.0, 0.5, 0.2) (explosion_size * 3) 80
    (fun k => r.pRand (9000 + k))
  let ps3 ← ps2.create_debris e.position combined_velocity avg_color
    (num_particles / 2) e.impact_velocity 3.0 (fun k => r.pRand (12000 + k))
  let num_fragments := r.randint 0 2 5
  let fragment_mass := total_mass * 0.05
  let frags := explosionFragmentsAux r cc fragment_mass e.impact_velocity
    (body1.radius + body2.radius) combined_velocity e.position 0 num_fragments
  .ok (frags, ps3)

/-- The fragment loop of `_handle_fragmentation` (lines 613-642). -/
def fragmentationFragments (r : RandomDraws) (cc nf : ℕ)
    (frag_mass impact_velocity core_radius : ℝ) (avg_color : ℝ × ℝ × ℝ)
    (combined_velocity position : Vector3) : List CelestialBody :=
  (List.range nf).map fun (i : ℕ) =>
    let angle := 2 * Real.pi * (i : ℝ) / (nf : ℝ) + r.uniform (8 * i) (-0.3) 0.3
    let elevation := r.uniform (8 * i + 1) (-0.3) 0.3
    let direction : Vector3 :=
      ⟨Real.cos angle * Real.cos elevation, Real.sin elevation,
        Real.sin angle * Real.cos elevation⟩
    let eject_speed := impact_velocity * r.uniform (8 * i + 2) 0.3 0.7
    let frag_velocity := combined_velocity + direction.mul eject_speed
    let frag_position := position + direction.mul (core_radius + 5)
    let frag_radius := max 1.0 (core_radius * 0.3 * r.uniform (8 * i + 3) 0.5 1.5)
    CelestialBody.init 0 ("Fragment_" ++ toString cc ++ "_" ++ toString i)
      (frag_mass * r.uniform (8 * i + 4) 0.5 1.5) frag_radius frag_position
      frag_velocity
      (avg_color.1 * r.uniform (8 * i + 5) 0.8 1.0,
        avg_color.2.1 * r.uniform (8 * i + 6) 0.8 1.0,
        avg_color.2.2 * r.uniform (8 * i + 7) 0.8 1.0) false

/-- `_handle_fragmentation` (src/physics.py lines 578-660): a reduced core
plus ejected fragments. -/
def handle_fragmentation (r : RandomDraws) (cc : ℕ) (e : CollisionEvent)
    (ps : ParticleSystem) : Except String (List CelestialBody × ParticleSystem) := do
  let body1 := e.body1
  let body2 := e.body2
  let total_mass := body1.mass + body2.mass
  let combined_velocity ←
    (body1.velocity.mul body1.mass + body2.velocity.mul body2.mass).truediv total_mass
  let core_mass := total_mass * 0.6
  let core_radius := ((body1.radius ^ 3 + body2.radius ^ 3) * 0.6) ^ ((1 : ℝ) / 3)
  let avg_color := ((body1.color.1 + body2.color.1) / 2,
    (body1.color.2.1 + body2.color.2.1) / 2, (body1.color.2.2 + body2.color.2.2) / 2)
  let larger := if body2.mass < body1.mass then body1 else body2
  let core := CelestialBody.init 0 (larger.name ++ "*") core_mass core_radius
    e.position combined_velocity avg_color (body1.is_star || body2.is_star)
  let remaining_mass := total_mass - core_mass
  let num_fragments := r.randint 0 3 7
  let frag_mass := remaining_mass / (num_fragments : ℝ)
  let frags := fragmentationFragments r cc num_fragments frag_mass e.impact_velocity
    core_radius avg_color combined_velocity e.position
  let ps1 := ps.create_explosion e.position (1.0, 0.6, 0.2) 100 e.impact_velocity
    3.0 2.0 r.pRand
  let ps2 ← ps1.create_debris e.position combined_velocity avg_color 50
    (e.impact_velocity * 0.5) 2.0 (fun k => r.pRand (15000 + k))
  .ok (core :: frags, ps2)

/-! ## Engine state and the per-frame collision pass -/

/-- The mutable fields of `PhysicsEngine` that the collision pass touches.
`has_callback` / `callback_log` model whether `collision_callback` is set
and the sequence of events it has been invoked on. -/
structure EngineState where
  bodies : List CelestialBody
  toRemove : List CelestialBody
  toAdd : List CelestialBody
  collision_count : ℕ
  particles : ParticleSystem
  has_callback : Bool
  callback_log : List CollisionEvent

/-- Python `body in list` membership (object identity via `oid`). -/
def memObj (b : CelestialBody) (l : List CelestialBody) : Bool :=
  l.any fun c => c.oid == b.oid

/-- The type dispatch of `handle_collision` (src/physics.py lines 220-231):
`cc` is the already-incremented `self.collision_count`. -/
def dispatch_handler (r : RandomDraws) (cc : ℕ) (e : CollisionEvent)
    (ps : ParticleSystem) : Except String (List CelestialBody × ParticleSystem) :=
  if e.collision_type = "black_hole_consume" then handle_black_hole_consume r e ps
  else if e.collision_type = "black_hole_merge" then handle_black_hole_merge r e ps
  else if e.collision_type = "neutron_consume" then handle_neutron_consume r e ps
  else if e.collision_type = "explosion" then handle_explosion r cc e ps
  else if e.collision_type = "fragment" then handle_fragmentation r cc e ps
  else handle_merge r cc e ps

/-- `PhysicsEngine.handle_collision` (src/physics.py lines 205-235): ignore
the event if either participant is already marked for removal; otherwise
mark both for removal, bump the counter, dispatch on the collision type,
schedule the handler's bodies, and fire the callback.  The removal marks
and the counter bump happen before the dispatch in the source; here they
are folded into the result record and the dispatch arguments. -/
def handle_collision (r : RandomDraws) (s : EngineState) (e : CollisionEvent) :
    Except String EngineState :=
  if memObj e.body1 s.toRemove || memObj e.body2 s.toRemove then .ok s
  else
    match dispatch_handler r (s.collision_count + 1) e s.particles with
    | .error err => .error err
    | .ok res =>
      let s2 : EngineState :=
        { s with toRemove := s.toRemove ++ [e.body1, e.body2],
                 collision_count := s.collision_count + 1,
                 toAdd := s.toAdd ++ res.1, particles := res.2 }
      .ok (if s2.has_callback then { s2 with callback_log := s2.callback_log ++ [e] }
        else s2)

/-- The `for event in collisions: self.handle_collision(event)` loop of
`PhysicsEngine.update` (lines 707-708). -/
def processEvents (r : RandomDraws) (s : EngineState)
    (evs : List CollisionEvent) : Except String EngineState :=
  evs.foldlM (handle_collision r) s

/-- `PhysicsEngine.detect_collisions` (src/physics.py lines 169-203). -/
def detect_collisions (s : EngineState) : Except String (List CollisionEvent) :=
  (pairIndices s.bodies.length).foldlM
    (fun acc p =>
      match s.bodies[p.1]?, s.bodies[p.2]? with
      | some body_i, some body_j =>
        if memObj body_i s.toRemove || memObj body_j s.toRemove then .ok acc
        else
          let direction := body_j.position.sub body_i.position
          let distance := direction.magnitude
          let collision_distance := body_i.radius + body_j.radius
          if distance < collision_distance then do
            let relative_vel := body_j.velocity.sub body_i.velocity
            let impact_velocity := relative_vel.magnitude
            let total_mass := body_i.mass + body_j.mass
            let collision_pos ←
              (body_i.position.mul body_j.mass + body_j.position.mul body_i.mass).truediv
                total_mass
            .ok (acc ++ [CollisionEvent.init body_i body_j impact_velocity collision_pos])
          else .ok acc
      | _, _ => .ok acc)
    []

/-- `PhysicsEngine._apply_pending_changes` (src/physics.py lines 662-673):
first the removals (`list.remove` drops the first identity match, a no-op
when absent), then the additions, then both buffers are cleared. -/
def apply_pending_changes (s : EngineState) : EngineState :=
  let bodies := s.toRemove.foldl
    (fun bs b => bs.eraseP fun c => c.oid == b.oid) s.bodies
  { s with bodies := bodies ++ s.toAdd, toRemove := [], toAdd := [] }

/-- The collision section of `PhysicsEngine.update` (lines 705-709), with
collisions enabled: detect once per frame, resolve every event in order,
then apply the buffered roster changes. -/
def collision_pass (r : RandomDraws) (s : EngineState) : Except String EngineState := do
  let collisions ← detect_collisions s
  let s' ← processEvents r s collisions
  .ok (apply_pending_changes s')

/-! ## Aggregate queries and `clear` (src/physics.py lines 115-120, 782-810) -/

/-- `PhysicsEngine.clear`. -/
def clear (s : EngineState) : EngineState :=
  { s with bodies := [], particles := s.particles.clear,
           toAdd := [], toRemove := [] }

/-- `PhysicsEngine.total_kinetic_energy`. -/
def total_kinetic_energy (s : EngineState) : ℝ :=
  (s.bodies.map CelestialBody.kinetic_energy).sum

/-- `PhysicsEngine.total_potential_energy`. -/
def total_potential_energy (s : EngineState) : ℝ :=
  (pairIndices s.bodies.length).foldl
    (fun total p =>
      match s.bodies[p.1]?, s.bodies[p.2]? with
      | some bi, some bj => total + bi.potential_energy_with bj
      | _, _ => total)
    0.0

/-- `PhysicsEngine.total_energy`. -/
def total_energy (s : EngineState) : ℝ :=
  total_kinetic_energy s + total_potential_energy s

/-- `PhysicsEngine.center_of_mass`: the zero vector on an empty roster,
otherwise the mass-weighted position mean (via `Vector3.__truediv__`). -/
def center_of_mass (s : EngineState) : Except String Vector3 :=
  match s.bodies with
  | [] => .ok Vector3.zero
  | _ =>
    let total_mass := (s.bodies.map CelestialBody.mass).sum
    let weighted_sum := (s.bodies.map fun b => b.position.mul b.mass).sum
    weighted_sum.truediv total_mass

/-! ## Sub-step schedule of `PhysicsEngine.update` (lines 687-702) -/

/-- The number of integration sub-steps chosen by `PhysicsEngine.update`:
`substeps = max(base_substeps, int(base_substeps * time_scale / 2))`,
raised to `int(scaled_dt / max_substep_dt) + 1` when the per-substep
duration would exceed `max_substep_dt`. -/
def substep_count (dt time_scale : ℝ) : ℕ :=
  let scaled_dt := dt * time_scale
  let substeps : ℕ :=
    max base_substeps (pyInt ((base_substeps : ℝ) * time_scale / 2)).toNat
  let sub_dt := scaled_dt / (substeps : ℝ)
  if max_substep_dt < sub_dt then (pyInt (scaled_dt / max_substep_dt)).toNat + 1
  else substeps

/-- The `for _ in range(substeps): self._physics_step(sub_dt)` loop of
`PhysicsEngine.update`: the physics step runs exactly `substep_count`
times, each with duration `scaled_dt / substeps`. -/
def run_substeps {α : Type} (step : ℝ → α → α) (dt time_scale : ℝ) (a : α) : α :=
  let scaled_dt := dt * time_scale
  let n := substep_count dt time_scale
  (step (scaled_dt / (n : ℝ)))^[n] a

/-! ## Derived predicates and concrete inputs used by the theorems -/

/-- The capacity bound of the particle collection. -/
def ParticleSystem.CapacityInv (ps : ParticleSystem) : Prop :=
  ps.particles.length ≤ ps.max_particles

/-- `handle_collision`'s early-return condition: some participant is
already marked for removal. -/
def skipsEvent (s : EngineState) (e : CollisionEvent) : Bool :=
  memObj e.body1 s.toRemove || memObj e.body2 s.toRemove

/-- Two events share no participant (object identity). -/
def eventDisjoint (e e' : CollisionEvent) : Prop :=
  e.body1.oid ≠ e'.body1.oid ∧ e.body1.oid ≠ e'.body2.oid ∧
  e.body2.oid ≠ e'.body1.oid ∧ e.body2.oid ≠ e'.body2.oid

/-- The sub-list of events of one frame that `handle_collision` actually
resolves (does not silently ignore), in processing order.  A skipped event
leaves the state unchanged (`handle_collision` returns it untouched, see
`handle_collision_skip`), so the recursion continues from `s`; a failed
resolution aborts the frame. -/
def resolvedEvents (r : RandomDraws) : EngineState → List CollisionEvent →
    List CollisionEvent
  | _, [] => []
  | s, e :: rest =>
    if skipsEvent s e then resolvedEvents r s rest
    else e :: (match handle_collision r s e with
      | .ok s' => resolvedEvents r s' rest
      | .error _ => [])

/-- A star of mass 10, radius 2 at the origin, at rest (concrete input). -/
def sunBody : CelestialBody :=
  CelestialBody.init 1 "Sun" 10 2 Vector3.zero Vector3.zero (1, 1, 0) true

/-- A planet of mass 20, radius 2 at `(1,0,0)`, at rest: it overlaps
`sunBody` (centre distance 1 < radius sum 4). -/
def planetBody : CelestialBody :=
  CelestialBody.init 2 "P" 20 2 ⟨1, 0, 0⟩ Vector3.zero (0, 0, 1) false

/-- Engine state holding exactly the two overlapping bodies above. -/
def mergeScenarioState : EngineState :=
  { bodies := [sunBody, planetBody], toRemove := [], toAdd := [],
    collision_count := 0, particles := ParticleSystem.init 10000,
    has_callback := false, callback_log := [] }

/-- The collision event the detector reports for the scenario above, with
its impact velocity and mass-weighted position already evaluated. -/
def mergeScenarioEvent : CollisionEvent :=
  CollisionEvent.init sunBody planetBody 0 ⟨1 / 3, 0, 0⟩

/-- Non-star body of mass 2500 (concrete input for the C4 counterexample). -/
def planetA : CelestialBody :=
  CelestialBody.init 1 "A" 2500 5 Vector3.zero Vector3.zero (1, 0, 0) false

/-- Second non-star body of mass 2500. -/
def planetB : CelestialBody :=
  CelestialBody.init 2 "B" 2500 5 ⟨1, 0, 0⟩ Vector3.zero (0, 1, 0) false

/-- Zero-impact collision event between the two heavy non-star planets. -/
def heavyPlanetEvent : CollisionEvent :=
  CollisionEvent.init planetA planetB 0 ⟨0.5, 0, 0⟩

/-- A star of mass 2500 (concrete input for the C4 witness). -/
def starA : CelestialBody :=
  CelestialBody.init 1 "S1" 2500 5 Vector3.zero Vector3.zero (1, 1, 0) true

/-- Second star of mass 2500. -/
def starB : CelestialBody :=
  CelestialBody.init 2 "S2" 2500 5 ⟨1, 0, 0⟩ Vector3.zero (1, 1, 0) true

/-- Zero-impact collision event between the two stars; the combined mass
5000 exceeds the supernova threshold but not the black-hole threshold. -/
def starMergeEvent : CollisionEvent :=
  CollisionEvent.init starA starB 0 ⟨0.5, 0, 0⟩

/-- Unit-mass body at the origin (concrete input for force-pass witnesses). -/
def probeA : CelestialBody :=
  CelestialBody.init 1 "PA" 1 1 Vector3.zero Vector3.zero (1, 1, 1) false

/-- Unit-mass body at `(10,0,0)`: distance 10 from `probeA`, not skipped. -/
def probeB : CelestialBody :=
  CelestialBody.init 2 "PB" 1 1 ⟨10, 0, 0⟩ Vector3.zero (1, 1, 1) false

/-- A state in which `probeA` is already marked for removal (concrete input
for the C5 witness). -/
def skipState : EngineState :=
  { bodies := [], toRemove := [probeA], toAdd := [], collision_count := 3,
    particles := ParticleSystem.init 5, has_callback := true, callback_log := [] }

/-- An event naming the already-marked `probeA`. -/
def skipEvent : CollisionEvent :=
  CollisionEvent.init probeA probeB 0 Vector3.zero

/-- A concrete particle (concrete input for the C8 witness). -/
def witnessParticle : Particle :=
  Particle.init Vector3.zero Vector3.zero (1, 1, 1) 1 1 "debris"

/-! ## Helper lemmas -/

theorem Vector3.zero_def : (0 : Vector3) = ⟨0, 0, 0⟩ := rfl

theorem Vector3.add_def (a b : Vector3) :
    a + b = ⟨a.x + b.x, a.y + b.y, a.z + b.z⟩ := rfl

theorem Vector3.neg_def (a : Vector3) : -a = ⟨-a.x, -a.y, -a.z⟩ := rfl

theorem Vector3.magnitude_nonneg (a : Vector3) : 0 ≤ a.magnitude :=
  Real.sqrt_nonneg _

/-- Magnitude of a scalar multiple. -/
theorem Vector3.magnitude_mul (a : Vector3) (s : ℝ) :
    (a.mul s).magnitude = |s| * a.magnitude := by
  unfold Vector3.magnitude Vector3.mul
  have h : (a.x * s) ^ 2 + (a.y * s) ^ 2 + (a.z * s) ^ 2
      = s ^ 2 * (a.x ^ 2 + a.y ^ 2 + a.z ^ 2) := by ring
  rw [h, Real.sqrt_mul (sq_nonneg s), Real.sqrt_sq_eq_abs]

/-- `normalize` always succeeds, with an explicit result. -/
theorem Vector3.normalize_eq_ok (v : Vector3) :
    v.normalize = .ok (if v.magnitude = 0 then Vector3.zero
      else v.divScalar v.magnitude) := by
  unfold Vector3.normalize Vector3.truediv
  by_cases h : v.magnitude = 0 <;> simp [h]

theorem pyInt_of_nonneg {q : ℝ} (h : 0 ≤ q) : pyInt q = ⌊q⌋ := if_pos h

/-- Unfolding of `substep_count` with its lets reduced. -/
theorem substep_count_eq (dt ts : ℝ) :
    substep_count dt ts =
      if max_substep_dt <
          dt * ts / ((max base_substeps (pyInt ((base_substeps : ℝ) * ts / 2)).toNat : ℕ) : ℝ)
      then (pyInt (dt * ts / max_substep_dt)).toNat + 1
      else max base_substeps (pyInt ((base_substeps : ℝ) * ts / 2)).toNat := rfl

/-- `debrisParticle` never fails (its only fallible step is `normalize`). -/
theorem ParticleSystem.debrisParticle_ok (position velocity : Vector3)
    (color : ℝ × ℝ × ℝ) (spread size : ℝ) (u : ℕ → ℝ) :
    ∃ p, ParticleSystem.debrisParticle position velocity color spread size u = .ok p := by
  unfold ParticleSystem.debrisParticle
  rw [Vector3.normalize_eq_ok]
  exact ⟨_, rfl⟩

theorem ParticleSystem.add_particle_spec (ps : ParticleSystem) (p : Particle)
    (h : ps.CapacityInv) :
    (ps.add_particle p).CapacityInv ∧
    ∃ l, (ps.add_particle p).particles = ps.particles ++ l := by
  unfold ParticleSystem.add_particle ParticleSystem.CapacityInv at *
  split_ifs with hlt
  · exact ⟨by simp; omega, ⟨[p], rfl⟩⟩
  · exact ⟨h, ⟨[], by simp⟩⟩

theorem ParticleSystem.create_explosion_spec (pos : Vector3) (color : ℝ × ℝ × ℝ)
    (speed size lifetime : ℝ) :
    ∀ (n : ℕ) (u : ℕ → ℝ) (ps : ParticleSystem), ps.CapacityInv →
      (ps.create_explosion pos color n speed size lifetime u).CapacityInv ∧
      ∃ l, (ps.create_explosion pos color n speed size lifetime u).particles
          = ps.particles ++ l := by
  intro n
  induction n with
  | zero =>
    intro u ps h
    exact ⟨h, ⟨[], by simp [ParticleSystem.create_explosion]⟩⟩
  | succ n ih =>
    intro u ps h
    by_cases hcap : ps.particles.length ≥ ps.max_particles
    · simp only [ParticleSystem.create_explosion, if_pos hcap]
      exact ⟨h, ⟨[], by simp⟩⟩
    · simp only [ParticleSystem.create_explosion, if_neg hcap]
      have h' : (ParticleSystem.mk
          (ps.particles ++ [ParticleSystem.explosionParticle pos color speed size lifetime u])
          ps.max_particles).CapacityInv := by
        unfold ParticleSystem.CapacityInv at *
        simp only [List.length_append, List.length_singleton]
        omega
      obtain ⟨hinv, l, hl⟩ := ih (fun k => u (k + 6)) _ h'
      exact ⟨hinv, ⟨ParticleSystem.explosionParticle pos color speed size lifetime u :: l,
        by rw [hl]; simp⟩⟩

theorem ParticleSystem.create_debris_spec (pos vel : Vector3) (color : ℝ × ℝ × ℝ)
    (spread size : ℝ) :
    ∀ (n : ℕ) (u : ℕ → ℝ) (ps : ParticleSystem), ps.CapacityInv →
      ∃ ps', ps.create_debris pos vel color n spread size u = .ok ps' ∧
        ps'.CapacityInv ∧ ∃ l, ps'.particles = ps.particles ++ l := by
  intro n
  induction n with
  | zero =>
    intro u ps h
    exact ⟨ps, rfl, h, ⟨[], by simp⟩⟩
  | succ n ih =>
    intro u ps h
    by_cases hcap : ps.particles.length ≥ ps.max_particles
    · simp only [ParticleSystem.create_debris, if_pos hcap]
      exact ⟨ps, rfl, h, ⟨[], by simp⟩⟩
    · obtain ⟨p, hp⟩ := ParticleSystem.debrisParticle_ok pos vel color spread size u
      have h' : (ParticleSystem.mk (ps.particles ++ [p]) ps.max_particles).CapacityInv := by
        unfold ParticleSystem.CapacityInv at *
        simp only [List.length_append, List.length_singleton]
        omega
      obtain ⟨ps', hps', hinv, l, hl⟩ := ih (fun k => u (k + 6)) _ h'
      refine ⟨ps', ?_, hinv, ⟨p :: l, by rw [hl]; simp⟩⟩
      simp only [ParticleSystem.create_debris, if_neg hcap, hp]
      exact hps'

theorem ParticleSystem.create_shockwave_spec (pos : Vector3) (color : ℝ × ℝ × ℝ)
    (radius : ℝ) :
    ∀ (n : ℕ) (u : ℕ → ℝ) (ps : ParticleSystem), ps.CapacityInv →
      (ps.create_shockwave pos color radius n u).CapacityInv ∧
      ∃ l, (ps.create_shockwave pos color radius n u).particles = ps.particles ++ l := by
  intro n
  induction n with
  | zero =>
    intro u ps h
    exact ⟨h, ⟨[], by simp [ParticleSystem.create_shockwave]⟩⟩
  | succ n ih =>
    intro u ps h
    by_cases hcap : ps.particles.length ≥ ps.max_particles
    · simp only [ParticleSystem.create_shockwave, if_pos hcap]
      exact ⟨h, ⟨[], by simp⟩⟩
    · simp only [ParticleSystem.create_shockwave, if_neg hcap]
      have h' : (ParticleSystem.mk
          (ps.particles ++ [ParticleSystem.shockwaveParticle pos color radius u])
          ps.max_particles).CapacityInv := by
        unfold ParticleSystem.CapacityInv at *
        simp only [List.length_append, List.length_singleton]
        omega
      obtain ⟨hinv, l, hl⟩ := ih (fun k => u (k + 2)) _ h'
      exact ⟨hinv, ⟨ParticleSystem.shockwaveParticle pos color radius u :: l,
        by rw [hl]; simp⟩⟩

theorem ParticleSystem.create_fire_trail_spec (ps : ParticleSystem)
    (pos vel : Vector3) (color : ℝ × ℝ × ℝ) (u : ℕ → ℝ) (h : ps.CapacityInv) :
    (ps.create_fire_trail pos vel color u).CapacityInv ∧
    ∃ l, (ps.create_fire_trail pos vel color u).particles = ps.particles ++ l := by
  unfold ParticleSystem.create_fire_trail ParticleSystem.CapacityInv at *
  split_ifs with hcap
  · exact ⟨h, ⟨[], by simp⟩⟩
  · constructor
    · simp only [List.length_append, List.length_singleton]
      omega
    · exact ⟨_, rfl⟩

theorem ParticleSystem.update_cap (ps : ParticleSystem) (dt : ℝ)
    (h : ps.CapacityInv) : (ps.update dt).CapacityInv := by
  unfold ParticleSystem.update ParticleSystem.CapacityInv at *
  calc ((ps.particles.map (Particle.update · dt)).filter (·.alive)).length
      ≤ (ps.particles.map (Particle.update · dt)).length := List.length_filter_le _ _
    _ = ps.particles.length := List.length_map _ _
    _ ≤ ps.max_particles := h

/-! ## Claim theorems -/

/-- C10: `Vector3.normalize` is total at the public interface: for every
vector it returns a result (so `__truediv__`'s division-by-zero branch is
unreachable from `normalize`), and on the zero vector it returns the zero
vector. -/
theorem normalize_total :
    (∀ v : Vector3, ∃ u, v.normalize = .ok u) ∧
    Vector3.zero.normalize = .ok Vector3.zero := by
  constructor
  · intro v
    rw [Vector3.normalize_eq_ok]
    exact ⟨_, rfl⟩
  · rw [Vector3.normalize_eq_ok]
    have h : Vector3.zero.magnitude = 0 := by
      simp [Vector3.magnitude, Vector3.zero]
    simp [h]

/-- C6 (code-bug evidence): `CelestialBody.__init__` performs no input
validation at all — constructing a body with negative mass and negative
radius succeeds and stores the invalid values, instead of rejecting them
with a domain error as the claim (and spec.md §7) requires. -/
theorem constructor_accepts_nonpositive :
    (CelestialBody.init 1 "X" (-1) (-2) Vector3.zero Vector3.zero
      (1, 1, 1) false).mass = -1 ∧
    (CelestialBody.init 1 "X" (-1) (-2) Vector3.zero Vector3.zero
      (1, 1, 1) false).radius = -2 :=
  ⟨rfl, rfl⟩

/-- C9: after `clear()`, and more generally on every empty roster, the
aggregate queries return defined neutral values: zero total kinetic,
potential and total energy, and the zero vector (wrapped in `ok`, no
error) for the centre of mass. -/
theorem empty_roster_aggregates :
    (∀ s : EngineState,
      total_kinetic_energy (clear s) = 0 ∧
      total_potential_energy (clear s) = 0 ∧
      total_energy (clear s) = 0 ∧
      center_of_mass (clear s) = .ok Vector3.zero) ∧
    ∀ s : EngineState,
      total_kinetic_energy { s with bodies := [] } = 0 ∧
      total_potential_energy { s with bodies := [] } = 0 ∧
      total_energy { s with bodies := [] } = 0 ∧
      center_of_mass { s with bodies := [] } = .ok Vector3.zero := by
  have key : ∀ s : EngineState, s.bodies = [] →
      total_kinetic_energy s = 0 ∧ total_potential_energy s = 0 ∧
      total_energy s = 0 ∧ center_of_mass s = .ok Vector3.zero := by
    intro s h
    have hke : total_kinetic_energy s = 0 := by simp [total_kinetic_energy, h]
    have hpe : total_potential_energy s = 0 := by
      have h00 : (0.0 : ℝ) = 0 := by norm_num
      simp [total_potential_energy, h, pairIndices, h00]
    refine ⟨hke, hpe, ?_, ?_⟩
    · simp [total_energy, hke, hpe]
    · simp [center_of_mass, h]
  exact ⟨fun s => key (clear s) rfl, fun s => key _ rfl⟩

/-- C7 (amended): for `dt > 0` and `timeScale > 0` while running, the
sub-step count `N = substep_count dt timeScale` satisfies
`N ≥ base_substeps` and `N ≥ ⌊base_substeps × timeScale / 2⌋` (the source
truncates this quotient with `int()`, so the claim's untruncated lower
bound fails — see the counterexample), the per-substep duration
`dt × timeScale / N` never exceeds `max_substep_dt`, and the integration
loop runs the physics step exactly `N` times with that duration. -/
theorem substep_schedule_bounds (dt ts : ℝ) (hdt : 0 < dt) (hts : 0 < ts) :
    base_substeps ≤ substep_count dt ts ∧
    ⌊(base_substeps : ℝ) * ts / 2⌋ ≤ (substep_count dt ts : ℤ) ∧
    dt * ts / (substep_count dt ts : ℝ) ≤ max_substep_dt ∧
    ∀ (α : Type) (step : ℝ → α → α) (a : α),
      run_substeps step dt ts a =
        (step (dt * ts / (substep_count dt ts : ℝ)))^[substep_count dt ts] a := by
  have hx : (0 : ℝ) ≤ (base_substeps : ℝ) * ts / 2 := by
    have : (0 : ℝ) ≤ (base_substeps : ℝ) := Nat.cast_nonneg _
    positivity
  have hpy : pyInt ((base_substeps : ℝ) * ts / 2) = ⌊(base_substeps : ℝ) * ts / 2⌋ :=
    pyInt_of_nonneg hx
  have hfl : (0 : ℤ) ≤ ⌊(base_substeps : ℝ) * ts / 2⌋ := Int.floor_nonneg.mpr hx
  have htn : (((pyInt ((base_substeps : ℝ) * ts / 2)).toNat : ℤ)) =
      ⌊(base_substeps : ℝ) * ts / 2⌋ := by
    rw [hpy, Int.toNat_of_nonneg hfl]
  have hs0b : base_substeps ≤ max base_substeps (pyInt ((base_substeps : ℝ) * ts / 2)).toNat :=
    le_max_left _ _
  have hs0x : ⌊(base_substeps : ℝ) * ts / 2⌋ ≤
      ((max base_substeps (pyInt ((base_substeps : ℝ) * ts / 2)).toNat : ℕ) : ℤ) := by
    rw [← htn]
    exact_mod_cast le_max_right base_substeps (pyInt ((base_substeps : ℝ) * ts / 2)).toNat
  have hs0pos : 0 < max base_substeps (pyInt ((base_substeps : ℝ) * ts / 2)).toNat :=
    lt_of_lt_of_le (by norm_num [base_substeps]) hs0b
  have hscaled : 0 < dt * ts := mul_pos hdt hts
  have hmax : (0 : ℝ) < max_substep_dt := by norm_num [max_substep_dt]
  have hs0posR : (0 : ℝ) <
      ((max base_substeps (pyInt ((base_substeps : ℝ) * ts / 2)).toNat : ℕ) : ℝ) := by
    exact_mod_cast hs0pos
  have hmain : base_substeps ≤ substep_count dt ts ∧
      ⌊(base_substeps : ℝ) * ts / 2⌋ ≤ (substep_count dt ts : ℤ) ∧
      dt * ts / (substep_count dt ts : ℝ) ≤ max_substep_dt := by
    rw [substep_count_eq]
    split_ifs with hc
    · -- the stability ceiling raises the count
      have hy : (0 : ℝ) ≤ dt * ts / max_substep_dt := le_of_lt (div_pos hscaled hmax)
      have hnn : (0 : ℤ) ≤ ⌊dt * ts / max_substep_dt⌋ := Int.floor_nonneg.mpr hy
      have hpyy : pyInt (dt * ts / max_substep_dt) = ⌊dt * ts / max_substep_dt⌋ :=
        pyInt_of_nonneg hy
      have hs0y : ((max base_substeps (pyInt ((base_substeps : ℝ) * ts / 2)).toNat : ℕ) : ℝ) <
          dt * ts / max_substep_dt := by
        rw [lt_div_iff₀ hmax]
        have hc' := (lt_div_iff₀ hs0posR).mp hc
        linarith
      have hs0fl : ((max base_substeps (pyInt ((base_substeps : ℝ) * ts / 2)).toNat : ℕ) : ℤ) ≤
          ⌊dt * ts / max_substep_dt⌋ := Int.le_floor.mpr (le_of_lt hs0y)
      have hs0N : max base_substeps (pyInt ((base_substeps : ℝ) * ts / 2)).toNat ≤
          (pyInt (dt * ts / max_substep_dt)).toNat := by
        rw [hpyy]
        omega
      have hcast : ((⌊dt * ts / max_substep_dt⌋.toNat : ℕ) : ℝ) =
          ((⌊dt * ts / max_substep_dt⌋ : ℤ) : ℝ) := by
        rw [← Int.cast_natCast, Int.toNat_of_nonneg hnn]
      have hNy : (dt * ts / max_substep_dt : ℝ) <
          (((pyInt (dt * ts / max_substep_dt)).toNat + 1 : ℕ) : ℝ) := by
        rw [hpyy]
        calc dt * ts / max_substep_dt
            < ((⌊dt * ts / max_substep_dt⌋ : ℤ) : ℝ) + 1 := Int.lt_floor_add_one _
          _ = ((⌊dt * ts / max_substep_dt⌋.toNat : ℕ) : ℝ) + 1 := by rw [hcast]
          _ = (((⌊dt * ts / max_substep_dt⌋.toNat + 1 : ℕ)) : ℝ) := by push_cast; ring
      refine ⟨le_trans hs0b (le_trans hs0N (Nat.le_succ _)), ?_, ?_⟩
      · calc ⌊(base_substeps : ℝ) * ts / 2⌋
            ≤ _ := hs0x
          _ ≤ _ := by exact_mod_cast le_trans hs0N (Nat.le_succ _)
      · have hypos : (0 : ℝ) < dt * ts / max_substep_dt := div_pos hscaled hmax
        have h1 : dt * ts / (((pyInt (dt * ts / max_substep_dt)).toNat + 1 : ℕ) : ℝ) <
            dt * ts / (dt * ts / max_substep_dt) :=
          div_lt_div_of_pos_left hscaled hypos hNy
        have h2 : dt * ts / (dt * ts / max_substep_dt) = max_substep_dt := by
          field_simp
        rw [h2] at h1
        exact_mod_cast le_of_lt h1
    · -- the base count already satisfies the ceiling
      exact ⟨hs0b, hs0x, le_of_not_lt hc⟩
  exact ⟨hmain.1, hmain.2.1, hmain.2.2, fun α step a => rfl⟩

/-- C7 counterexample: at `dt = 1/1000`, `timeScale = 13/5` the code picks
`N = 10` sub-steps (because `int()` truncates `8 × 2.6 / 2 = 10.4` to 10),
yet the claim demands `N ≥ baseSubsteps × timeScale / 2 = 10.4`. -/
theorem substep_floor_counterexample :
    substep_count (1 / 1000) (13 / 5) = 10 ∧
    ¬ ((base_substeps : ℝ) * (13 / 5) / 2 ≤ (substep_count (1 / 1000) (13 / 5) : ℝ)) := by
  have hx : pyInt ((base_substeps : ℝ) * (13 / 5) / 2) = 10 := by
    rw [pyInt_of_nonneg (by norm_num [base_substeps])]
    rw [show ((base_substeps : ℝ) * (13 / 5) / 2) = 52 / 5 by norm_num [base_substeps]]
    rw [Int.floor_eq_iff]
    norm_num
  have h10 : substep_count (1 / 1000) (13 / 5) = 10 := by
    rw [substep_count_eq, hx]
    have hmx : max base_substeps (10 : ℤ).toNat = 10 := by decide
    rw [hmx]
    rw [if_neg (by norm_num [max_substep_dt])]
  refine ⟨h10, ?_⟩
  rw [h10]
  norm_num [base_substeps]

/-- Witness for C7: concrete instance at `dt = 1`, `timeScale = 1`. -/
theorem substep_schedule_bounds_witness :
    (0 : ℝ) < 1 ∧
    (base_substeps ≤ substep_count 1 1 ∧
     ⌊(base_substeps : ℝ) * 1 / 2⌋ ≤ (substep_count 1 1 : ℤ) ∧
     (1 : ℝ) * 1 / (substep_count 1 1 : ℝ) ≤ max_substep_dt ∧
     ∀ (α : Type) (step : ℝ → α → α) (a : α),
       run_substeps step 1 1 a =
         (step ((1 : ℝ) * 1 / (substep_count 1 1 : ℝ)))^[substep_count 1 1] a) :=
  ⟨by norm_num, substep_schedule_bounds 1 1 (by norm_num) (by norm_num)⟩

/-- C8: `len(particles) ≤ max_particles` is an invariant preserved by every
`ParticleSystem` operation, for every burst size and draw oracle; the
emission operations only ever append (never evict existing particles) and
stop adding silently once capacity is reached; the constructor establishes
the invariant. -/
theorem particle_capacity_invariant (ps : ParticleSystem) (h : ps.CapacityInv) :
    (∀ p, (ps.add_particle p).CapacityInv ∧
      ∃ l, (ps.add_particle p).particles = ps.particles ++ l) ∧
    (∀ (pos : Vector3) (color : ℝ × ℝ × ℝ) (n : ℕ) (speed size lifetime : ℝ)
        (u : ℕ → ℝ),
      (ps.create_explosion pos color n speed size lifetime u).CapacityInv ∧
      ∃ l, (ps.create_explosion pos color n speed size lifetime u).particles
          = ps.particles ++ l) ∧
    (∀ (pos vel : Vector3) (color : ℝ × ℝ × ℝ) (n : ℕ) (spread size : ℝ)
        (u : ℕ → ℝ),
      ∃ ps', ps.create_debris pos vel color n spread size u = .ok ps' ∧
        ps'.CapacityInv ∧ ∃ l, ps'.particles = ps.particles ++ l) ∧
    (∀ (pos : Vector3) (color : ℝ × ℝ × ℝ) (radius : ℝ) (n : ℕ) (u : ℕ → ℝ),
      (ps.create_shockwave pos color radius n u).CapacityInv ∧
      ∃ l, (ps.create_shockwave pos color radius n u).particles = ps.particles ++ l) ∧
    (∀ (pos vel : Vector3) (color : ℝ × ℝ × ℝ) (u : ℕ → ℝ),
      (ps.create_fire_trail pos vel color u).CapacityInv ∧
      ∃ l, (ps.create_fire_trail pos vel color u).particles = ps.particles ++ l) ∧
    (∀ dt, (ps.update dt).CapacityInv) ∧
    ps.clear.CapacityInv ∧
    (∀ m, (ParticleSystem.init m).CapacityInv) := by
  refine ⟨fun p => ParticleSystem.add_particle_spec ps p h,
    fun pos color n speed size lifetime u =>
      ParticleSystem.create_explosion_spec pos color speed size lifetime n u ps h,
    fun pos vel color n spread size u =>
      ParticleSystem.create_debris_spec pos vel color spread size n u ps h,
    fun pos color radius n u =>
      ParticleSystem.create_shockwave_spec pos color radius n u ps h,
    fun pos vel color u => ParticleSystem.create_fire_trail_spec ps pos vel color u h,
    fun dt => ParticleSystem.update_cap ps dt h, ?_, fun m => ?_⟩
  · exact Nat.zero_le _
  · exact Nat.zero_le _

/-- Witness for C8: the invariant holds for a fresh two-slot system and is
preserved when a concrete particle is added. -/
theorem particle_capacity_invariant_witness :
    (ParticleSystem.init 2).CapacityInv ∧
    ((ParticleSystem.init 2).add_particle witnessParticle).CapacityInv ∧
    ∃ l, ((ParticleSystem.init 2).add_particle witnessParticle).particles
        = (ParticleSystem.init 2).particles ++ l :=
  ⟨Nat.zero_le 2,
    ((particle_capacity_invariant (ParticleSystem.init 2) (Nat.zero_le 2)).1
      witnessParticle).1,
    ((particle_capacity_invariant (ParticleSystem.init 2) (Nat.zero_le 2)).1
      witnessParticle).2⟩

/-! ## Force-pass helper lemmas -/

theorem Vector3.mul_dist (a b : Vector3) (s : ℝ) :
    (a + b).mul s = a.mul s + b.mul s := by
  ext <;> simp [Vector3.mul, Vector3.add_def] <;> ring

theorem Vector3.divScalar_mul_cancel (v : Vector3) (m : ℝ) (h : m ≠ 0) :
    (v.divScalar m).mul m = v := by
  ext <;> simp [Vector3.mul, Vector3.divScalar] <;> field_simp

theorem Vector3.zero_mul_any (m : ℝ) : Vector3.zero.mul m = 0 := by
  ext <;> simp [Vector3.mul, Vector3.zero, Vector3.zero_def]

/-- Invariant preservation through a monadic `foldlM` over `Except`. -/
theorem foldlM_except_inv {α β : Type} (f : β → α → Except String β)
    (P : β → Prop) :
    ∀ (l : List α) (b : β), P b →
      (∀ b' a, P b' → a ∈ l → ∃ b'', f b' a = .ok b'' ∧ P b'') →
      ∃ b', l.foldlM f b = .ok b' ∧ P b' := by
  intro l
  induction l with
  | nil => intro b hP _; exact ⟨b, rfl, hP⟩
  | cons a t ih =>
    intro b hP hstep
    obtain ⟨b'', hok, hP''⟩ := hstep b a hP (List.mem_cons_self a t)
    have := ih b'' hP'' fun b' a' hb ha => hstep b' a' hb (List.mem_cons_of_mem _ ha)
    obtain ⟨b', hfold, hP'⟩ := this
    refine ⟨b', ?_, hP'⟩
    rw [List.foldlM_cons, hok]
    exact hfold

theorem mem_pairIndices {n i j : ℕ} (h : (i, j) ∈ pairIndices n) :
    i < j ∧ j < n := by
  unfold pairIndices at h
  simp only [List.mem_flatMap, List.mem_map, List.mem_filter, List.mem_range] at h
  obtain ⟨a, _, b, ⟨hb, hab⟩, heq⟩ := h
  obtain ⟨rfl, rfl⟩ := Prod.mk.injEq .. ▸ heq
  exact ⟨by simpa using hab, hb⟩

/-- Replacing one element shifts a mapped sum by the weight difference. -/
theorem sum_map_set (w : CelestialBody → Vector3) :
    ∀ (bs : List CelestialBody) (i : ℕ) (b' bi : CelestialBody),
      bs[i]? = some bi →
      ((bs.set i b').map w).sum + w bi = (bs.map w).sum + w b' := by
  intro bs
  induction bs with
  | nil => intro i b' bi h; simp at h
  | cons a t ih =>
    intro i b' bi h
    cases i with
    | zero =>
      simp only [List.getElem?_cons_zero, Option.some.injEq] at h
      subst h
      simp only [List.set_cons_zero, List.map_cons, List.sum_cons]
      abel
    | succ n =>
      simp only [List.getElem?_cons_succ] at h
      simp only [List.set_cons_succ, List.map_cons, List.sum_cons]
      have h2 := ih n b' bi h
      calc w a + ((t.set n b').map w).sum + w bi
          = w a + (((t.set n b').map w).sum + w bi) := by rw [add_assoc]
        _ = w a + ((t.map w).sum + w b') := by rw [h2]
        _ = w a + (t.map w).sum + w b' := by rw [add_assoc]

/-- The force pass starts from zero momentum rate: accelerations are reset. -/
theorem momentum_rate_reset (bs : List CelestialBody) :
    momentum_rate (bs.map CelestialBody.reset_acceleration) = 0 := by
  unfold momentum_rate
  rw [List.map_map]
  apply List.sum_eq_zero
  intro x hx
  simp only [List.mem_map, Function.comp] at hx
  obtain ⟨b, _, rfl⟩ := hx
  exact Vector3.zero_mul_any _

/-- One pair-loop iteration succeeds (given nonzero masses) and preserves
the net momentum rate, the masses and the roster length. -/
theorem gravPairStep_ok (bs : List CelestialBody) (p : ℕ × ℕ)
    (hm : ∀ b ∈ bs, b.mass ≠ 0) (hij : p.1 ≠ p.2) :
    ∃ bs', gravPairStep bs p = .ok bs' ∧
      momentum_rate bs' = momentum_rate bs ∧
      (∀ b ∈ bs', b.mass ≠ 0) := by
  unfold gravPairStep
  match hbi : bs[p.1]?, hbj : bs[p.2]? with
  | none, _ => exact ⟨bs, rfl, rfl, hm⟩
  | some bi, none => exact ⟨bs, rfl, rfl, hm⟩
  | some bi, some bj =>
    dsimp only
    have hmi : bi.mass ≠ 0 := hm bi (List.getElem?_mem hbi)
    have hmj : bj.mass ≠ 0 := hm bj (List.getElem?_mem hbj)
    by_cases hskip :
        (bj.position.sub bi.position).magnitude < (bi.radius + bj.radius) * 0.5
    · rw [if_pos hskip]
      exact ⟨bs, rfl, rfl, hm⟩
    · rw [if_neg hskip]
      set f := pair_force bi bj with hf
      set bi' : CelestialBody :=
        { bi with acceleration := bi.acceleration + f.divScalar bi.mass } with hbi'
      set bj' : CelestialBody :=
        { bj with acceleration := bj.acceleration + f.neg.divScalar bj.mass } with hbj'
      have happ1 : bi.apply_force f = .ok bi' := by
        unfold CelestialBody.apply_force Vector3.truediv
        rw [if_neg hmi]
        rfl
      have happ2 : bj.apply_force f.neg = .ok bj' := by
        unfold CelestialBody.apply_force Vector3.truediv
        rw [if_neg hmj]
        rfl
      refine ⟨(bs.set p.1 bi').set p.2 bj', ?_, ?_, ?_⟩
      · rw [happ1, happ2]
        rfl
      · -- the pair contributes `f` to body i's momentum rate and `-f` to j's
        set w : CelestialBody → Vector3 := fun b => b.acceleration.mul b.mass with hw
        have hwi : w bi' = w bi + f := by
          rw [hw]
          simp only [hbi']
          rw [Vector3.mul_dist, Vector3.divScalar_mul_cancel f bi.mass hmi]
        have hwj : w bj' = w bj + (-f) := by
          rw [hw]
          simp only [hbj']
          rw [Vector3.mul_dist, Vector3.divScalar_mul_cancel _ bj.mass hmj]
          rfl
        have hbj2 : (bs.set p.1 bi')[p.2]? = some bj := by
          rw [List.getElem?_set_ne hij]
          exact hbj
        have e1 := sum_map_set w bs p.1 bi' bi hbi
        have e2 := sum_map_set w (bs.set p.1 bi') p.2 bj' bj hbj2
        unfold momentum_rate
        have : ((bs.set p.1 bi').set p.2 bj').map w = (((bs.set p.1 bi').set p.2 bj').map w) := rfl
        -- combine the two exchange equations
        have goal : (((bs.set p.1 bi').set p.2 bj').map w).sum = (bs.map w).sum := by
          have e2' : (((bs.set p.1 bi').set p.2 bj').map w).sum
              = ((bs.set p.1 bi').map w).sum + w bj' - w bj := by
            rw [← e2]; abel
          have e1' : ((bs.set p.1 bi').map w).sum = (bs.map w).sum + w bi' - w bi := by
            rw [← e1]; abel
          rw [e2', e1', hwi, hwj]
          abel
        exact goal
      · intro b hb
        rcases List.mem_or_eq_of_mem_set hb with hb2 | rfl
        · rcases List.mem_or_eq_of_mem_set hb2 with hb3 | rfl
          · exact hm b hb3
          · exact hmi
        · exact hmj

/-- C1: in a force pass over bodies of nonzero mass, every processed pair
applies some force vector `f = pair_force bi bj` to body `i` and exactly
`f.neg` — the same computed vector, negated, not recomputed — to body `j`;
consequently the whole pass succeeds and the net momentum change rate
`Σ mass·acceleration` it produces is exactly zero. -/
theorem newton_third_law_force_pass (bs : List CelestialBody)
    (hm : ∀ b ∈ bs, b.mass ≠ 0) :
    (∃ bs', compute_gravitational_forces bs = .ok bs' ∧ momentum_rate bs' = 0) ∧
    (∀ (bsc : List CelestialBody) (i j : ℕ) (bi bj : CelestialBody),
      bsc[i]? = some bi → bsc[j]? = some bj →
      bi.mass ≠ 0 → bj.mass ≠ 0 →
      ¬ (bj.position.sub bi.position).magnitude < (bi.radius + bj.radius) * 0.5 →
      gravPairStep bsc (i, j) = .ok
        ((bsc.set i { bi with acceleration :=
            bi.acceleration + (pair_force bi bj).divScalar bi.mass }).set j
          { bj with acceleration :=
            bj.acceleration + (pair_force bi bj).neg.divScalar bj.mass })) := by
  constructor
  · have hinit : momentum_rate (bs.map CelestialBody.reset_acceleration) = 0 ∧
        ∀ b ∈ bs.map CelestialBody.reset_acceleration, b.mass ≠ 0 := by
      refine ⟨momentum_rate_reset bs, ?_⟩
      intro b hb
      simp only [List.mem_map] at hb
      obtain ⟨b0, hb0, rfl⟩ := hb
      exact hm b0 hb0
    obtain ⟨bs', hok, hP⟩ := foldlM_except_inv gravPairStep
      (fun l => momentum_rate l = 0 ∧ ∀ b ∈ l, b.mass ≠ 0)
      (pairIndices bs.length) (bs.map CelestialBody.reset_acceleration) hinit
      (by
        intro b' a hPa ha
        obtain ⟨ai, aj⟩ := a
        obtain ⟨hlt, _⟩ := mem_pairIndices ha
        obtain ⟨b'', hok, hmom, hmass⟩ :=
          gravPairStep_ok b' (ai, aj) hPa.2 (Nat.ne_of_lt hlt)
        exact ⟨b'', hok, by rw [hmom]; exact hPa.1, hmass⟩)
    exact ⟨bs', hok, hP.1⟩
  · intro bsc i j bi bj hbi hbj hmi hmj hns
    have happ1 : bi.apply_force (pair_force bi bj) = .ok
        { bi with acceleration := bi.acceleration + (pair_force bi bj).divScalar bi.mass } := by
      unfold CelestialBody.apply_force Vector3.truediv
      rw [if_neg hmi]
      rfl
    have happ2 : bj.apply_force (pair_force bi bj).neg = .ok
        { bj with acceleration := bj.acceleration + (pair_force bi bj).neg.divScalar bj.mass } := by
      unfold CelestialBody.apply_force Vector3.truediv
      rw [if_neg hmj]
      rfl
    unfold gravPairStep
    rw [show ((i, j).1 : ℕ) = i from rfl, show ((i, j).2 : ℕ) = j from rfl, hbi, hbj]
    dsimp only
    rw [if_neg hns, happ1, happ2]
    rfl

/-- Witness for C1: the two unit-mass probe bodies at distance 10. -/
theorem newton_third_law_force_pass_witness :
    (∀ b ∈ [probeA, probeB], b.mass ≠ 0) ∧
    [probeA, probeB][0]? = some probeA ∧
    [probeA, probeB][1]? = some probeB ∧
    probeA.mass ≠ 0 ∧ probeB.mass ≠ 0 ∧
    (¬ (probeB.position.sub probeA.position).magnitude <
      (probeA.radius + probeB.radius) * 0.5) ∧
    (∃ bs', compute_gravitational_forces [probeA, probeB] = .ok bs' ∧
      momentum_rate bs' = 0) ∧
    gravPairStep [probeA, probeB] (0, 1) = .ok
      (([probeA, probeB].set 0 { probeA with acceleration :=
          probeA.acceleration + (pair_force probeA probeB).divScalar probeA.mass }).set 1
        { probeB with acceleration :=
          probeB.acceleration + (pair_force probeA probeB).neg.divScalar probeB.mass }) := by
  have hmA : probeA.mass ≠ 0 := by norm_num [probeA, CelestialBody.init]
  have hmB : probeB.mass ≠ 0 := by norm_num [probeB, CelestialBody.init]
  have hm : ∀ b ∈ [probeA, probeB], b.mass ≠ 0 := by
    intro b hb
    simp only [List.mem_cons, List.not_mem_nil, or_false] at hb
    rcases hb with rfl | rfl
    · exact hmA
    · exact hmB
  have h100 : Real.sqrt 100 = 10 := by
    rw [show (100 : ℝ) = 10 ^ 2 by norm_num]
    exact Real.sqrt_sq (by norm_num)
  have hmag : (probeB.position.sub probeA.position).magnitude = 10 := by
    simp only [probeA, probeB, CelestialBody.init, Vector3.sub, Vector3.magnitude,
      Vector3.zero]
    norm_num [h100]
  have hns : ¬ (probeB.position.sub probeA.position).magnitude <
      (probeA.radius + probeB.radius) * 0.5 := by
    rw [hmag]
    norm_num [probeA, probeB, CelestialBody.init]
  have h := newton_third_law_force_pass [probeA, probeB] hm
  exact ⟨hm, rfl, rfl, hmA, hmB, hns, h.1,
    h.2 [probeA, probeB] 0 1 probeA probeB rfl rfl hmA hmB hns⟩

/-- C2: a pair at centre distance below `minDist = (rᵢ+rⱼ)×0.5` is skipped
entirely (no contribution to either acceleration); otherwise, when the
centres do not coincide, the applied force points along the `i → j`
direction and its magnitude is exactly the spec's
`G·mᵢ·mⱼ / effectiveDistance²` with
`effectiveDistance = max(d, max(minSoftening, minDist×0.1))`. -/
theorem pair_force_spec_refinement (bs : List CelestialBody) (i j : ℕ)
    (bi bj : CelestialBody) (hbi : bs[i]? = some bi) (hbj : bs[j]? = some bj)
    (hmi : 0 < bi.mass) (hmj : 0 < bj.mass) :
    ((bj.position.sub bi.position).magnitude < spec_min_dist bi bj →
      gravPairStep bs (i, j) = .ok bs) ∧
    (¬ (bj.position.sub bi.position).magnitude < spec_min_dist bi bj →
      0 < (bj.position.sub bi.position).magnitude →
      pair_force bi bj = (bj.position.sub bi.position).mul
        (spec_force_magnitude bi bj / (bj.position.sub bi.position).magnitude) ∧
      (pair_force bi bj).magnitude = spec_force_magnitude bi bj) := by
  constructor
  · intro hskip
    unfold spec_min_dist at hskip
    unfold gravPairStep
    rw [show ((i, j).1 : ℕ) = i from rfl, show ((i, j).2 : ℕ) = j from rfl, hbi, hbj]
    dsimp only
    rw [if_pos hskip]
  · intro hns hd
    have hforce : pair_force bi bj = (bj.position.sub bi.position).mul
        (spec_force_magnitude bi bj / (bj.position.sub bi.position).magnitude) := by
      unfold pair_force spec_force_magnitude spec_effective_distance spec_min_dist
      rw [if_pos hd]
      congr 1
      rw [sq]
    refine ⟨hforce, ?_⟩
    have hFnn : 0 ≤ spec_force_magnitude bi bj := by
      unfold spec_force_magnitude spec_effective_distance spec_min_dist
      have hG : (0 : ℝ) < CelestialBody.G := by norm_num [CelestialBody.G]
      positivity
    rw [hforce, Vector3.magnitude_mul,
      abs_of_nonneg (div_nonneg hFnn (le_of_lt hd)),
      div_mul_cancel₀ _ (ne_of_gt hd)]

/-- Witness for C2: the probe pair at distance 10 is processed and receives
exactly the spec's softened inverse-square force magnitude. -/
theorem pair_force_spec_refinement_witness :
    [probeA, probeB][0]? = some probeA ∧
    [probeA, probeB][1]? = some probeB ∧
    0 < probeA.mass ∧ 0 < probeB.mass ∧
    (¬ (probeB.position.sub probeA.position).magnitude <
      spec_min_dist probeA probeB) ∧
    0 < (probeB.position.sub probeA.position).magnitude ∧
    pair_force probeA probeB = (probeB.position.sub probeA.position).mul
      (spec_force_magnitude probeA probeB /
        (probeB.position.sub probeA.position).magnitude) ∧
    (pair_force probeA probeB).magnitude = spec_force_magnitude probeA probeB := by
  have hmA : (0 : ℝ) < probeA.mass := by norm_num [probeA, CelestialBody.init]
  have hmB : (0 : ℝ) < probeB.mass := by norm_num [probeB, CelestialBody.init]
  have h100 : Real.sqrt 100 = 10 := by
    rw [show (100 : ℝ) = 10 ^ 2 by norm_num]
    exact Real.sqrt_sq (by norm_num)
  have hmag : (probeB.position.sub probeA.position).magnitude = 10 := by
    simp only [probeA, probeB, CelestialBody.init, Vector3.sub, Vector3.magnitude,
      Vector3.zero]
    norm_num [h100]
  have hns : ¬ (probeB.position.sub probeA.position).magnitude <
      spec_min_dist probeA probeB := by
    rw [hmag]
    norm_num [spec_min_dist, probeA, probeB, CelestialBody.init]
  have hd : 0 < (probeB.position.sub probeA.position).magnitude := by
    rw [hmag]; norm_num
  obtain ⟨e1, e2⟩ := (pair_force_spec_refinement [probeA, probeB] 0 1 probeA probeB
    rfl rfl hmA hmB).2 hns hd
  exact ⟨rfl, rfl, hmA, hmB, hns, hd, e1, e2⟩

/-! ## Collision-handler helper lemmas -/

theorem except_bind_ok {α β : Type} (a : α) (f : α → Except String β) :
    (Except.ok a : Except String α) >>= f = f a := rfl

/-- `create_debris` never fails, independent of capacity. -/
theorem ParticleSystem.create_debris_isOk (pos vel : Vector3) (color : ℝ × ℝ × ℝ)
    (spread size : ℝ) :
    ∀ (n : ℕ) (u : ℕ → ℝ) (ps : ParticleSystem),
      ∃ ps', ps.create_debris pos vel color n spread size u = .ok ps' := by
  intro n
  induction n with
  | zero => intro u ps; exact ⟨ps, rfl⟩
  | succ n ih =>
    intro u ps
    by_cases hcap : ps.particles.length ≥ ps.max_particles
    · exact ⟨ps, by simp only [ParticleSystem.create_debris, if_pos hcap]⟩
    · obtain ⟨p, hp⟩ := ParticleSystem.debrisParticle_ok pos vel color spread size u
      obtain ⟨ps', hps'⟩ := ih (fun k => u (k + 6)) _
      exact ⟨ps', by simp only [ParticleSystem.create_debris, if_neg hcap, hp]; exact hps'⟩

/-- C4 (amended): for every collision resolved as a merge whose product is
a star, with neither parent exotic-named ("black hole"/"neutron"), and
whose combined mass exceeds the supernova threshold, the resolver yields
exactly one remnant — "Black Hole" at mass fraction 0.4 when the combined
mass also exceeds the higher black-hole threshold, else "Neutron Star" at
fraction 0.3 — followed by 3 to 6 ejected non-star fragment bodies, and
never a plain merge body. -/
theorem supernova_remnant_and_fragments (r : RandomDraws) (cc : ℕ)
    (e : CollisionEvent) (ps : ParticleSystem) (hr : r.Valid)
    (hstar : (e.body1.is_star || e.body2.is_star) = true)
    (hex1 : (nameContains e.body1.name "black hole"
      || nameContains e.body1.name "neutron") = false)
    (hex2 : (nameContains e.body2.name "black hole"
      || nameContains e.body2.name "neutron") = false)
    (hmass : SUPERNOVA_MASS_THRESHOLD < e.body1.mass + e.body2.mass) :
    ∃ remnant frags ps',
      handle_merge r cc e ps = .ok (remnant :: frags, ps') ∧
      (BLACK_HOLE_MASS_THRESHOLD < e.body1.mass + e.body2.mass →
        remnant.name = "Black Hole" ∧
        remnant.mass = (e.body1.mass + e.body2.mass) * 0.4) ∧
      (¬ BLACK_HOLE_MASS_THRESHOLD < e.body1.mass + e.body2.mass →
        remnant.name = "Neutron Star" ∧
        remnant.mass = (e.body1.mass + e.body2.mass) * 0.3) ∧
      remnant.is_star = true ∧
      3 ≤ frags.length ∧ frags.length ≤ 6 ∧
      ∀ frag ∈ frags, frag.is_star = false := by
  have htot : e.body1.mass + e.body2.mass ≠ 0 := by
    have h4 : (0 : ℝ) < SUPERNOVA_MASS_THRESHOLD := by
      norm_num [SUPERNOVA_MASS_THRESHOLD]
    exact ne_of_gt (lt_trans h4 hmass)
  have hveq : (e.body1.velocity.mul e.body1.mass
      + e.body2.velocity.mul e.body2.mass).truediv (e.body1.mass + e.body2.mass)
      = .ok ((e.body1.velocity.mul e.body1.mass
        + e.body2.velocity.mul e.body2.mass).divScalar (e.body1.mass + e.body2.mass)) := by
    unfold Vector3.truediv
    rw [if_neg htot]
  unfold handle_merge
  dsimp only
  rw [hveq, except_bind_ok]
  rw [if_pos ⟨hstar, hex1, hex2, hmass⟩]
  simp only [handle_supernova]
  obtain ⟨psd, hpsd⟩ := ParticleSystem.create_debris_isOk e.position
    ((e.body1.velocity.mul e.body1.mass
      + e.body2.velocity.mul e.body2.mass).divScalar (e.body1.mass + e.body2.mass))
    (0.8, 0.4, 0.2) 100.0 4.0 200 (fun k => r.pRand (7000 + k))
    ((List.range 3).foldl
      (fun (acc : ParticleSystem) (i : ℕ) =>
        acc.create_shockwave e.position (1.0, 0.7 - (i : ℝ) * 0.2, 0.3)
          (100.0 + (i : ℝ) * 50) 150 (fun k => r.pRand (5000 + 400 * i + k)))
      (ps.create_explosion e.position (1.0, 0.9, 0.5) 800 150.0 8.0 5.0 r.pRand))
  rw [hpsd, except_bind_ok]
  refine ⟨_, _, psd, rfl, ?_, ?_, ?_, ?_, ?_, ?_⟩
  · intro hbh
    rw [if_pos hbh]
    exact ⟨rfl, rfl⟩
  · intro hbh
    rw [if_neg hbh]
    exact ⟨rfl, rfl⟩
  · by_cases hbh : BLACK_HOLE_MASS_THRESHOLD < e.body1.mass + e.body2.mass
    · rw [if_pos hbh]; rfl
    · rw [if_neg hbh]; rfl
  · have hlen : (supernovaFragments r cc (r.randint 0 3 6)
        (e.body1.mass + e.body2.mass) e.position
        ((e.body1.velocity.mul e.body1.mass
          + e.body2.velocity.mul e.body2.mass).divScalar
          (e.body1.mass + e.body2.mass))).length = r.randint 0 3 6 := by
      unfold supernovaFragments
      rw [List.length_map, List.length_range]
    rw [hlen]
    exact (hr.1 0 3 6 (by norm_num)).1
  · have hlen : (supernovaFragments r cc (r.randint 0 3 6)
        (e.body1.mass + e.body2.mass) e.position
        ((e.body1.velocity.mul e.body1.mass
          + e.body2.velocity.mul e.body2.mass).divScalar
          (e.body1.mass + e.body2.mass))).length = r.randint 0 3 6 := by
      unfold supernovaFragments
      rw [List.length_map, List.length_range]
    rw [hlen]
    exact (hr.1 0 3 6 (by norm_num)).2
  · intro frag hfrag
    unfold supernovaFragments at hfrag
    simp only [List.mem_map, List.mem_range] at hfrag
    obtain ⟨i, _, rfl⟩ := hfrag
    rfl

/-- C4 counterexample: a merge-classified collision between the two
non-star planets of mass 2500 each has combined mass 5000 above the
supernova threshold, yet the resolver produces a single plain merge body
"B+" of mass 5000 — no remnant and no fragments (the supernova path also
requires the merge product to be a star, which the claim omits). -/
theorem supernova_threshold_counterexample :
    heavyPlanetEvent.collision_type = "merge" ∧
    SUPERNOVA_MASS_THRESHOLD < heavyPlanetEvent.body1.mass + heavyPlanetEvent.body2.mass ∧
    ∃ merged ps',
      handle_merge lowDraws 1 heavyPlanetEvent (ParticleSystem.init 100) =
        .ok ([merged], ps') ∧
      merged.name = "B+" ∧
      merged.mass = 5000 ∧
      ¬ 4 ≤ ([merged] : List CelestialBody).length := by
  have nAbh : nameContains planetA.name "black hole" = false := by decide
  have nBbh : nameContains planetB.name "black hole" = false := by decide
  have nAn : nameContains planetA.name "neutron" = false := by decide
  have nBn : nameContains planetB.name "neutron" = false := by decide
  have hsA : planetA.is_star = false := rfl
  have hsB : planetB.is_star = false := rfl
  refine ⟨?_, ?_, ?_⟩
  · show collision_type_of planetA planetB 0 = "merge"
    unfold collision_type_of
    simp only [nAbh, nBbh, nAn, nBn, hsA, hsB]
    norm_num
  · norm_num [SUPERNOVA_MASS_THRESHOLD, heavyPlanetEvent, CollisionEvent.init,
      planetA, planetB, CelestialBody.init]
  · have htot : planetA.mass + planetB.mass ≠ 0 := by
      norm_num [planetA, planetB, CelestialBody.init]
    have hveq : (planetA.velocity.mul planetA.mass
        + planetB.velocity.mul planetB.mass).truediv (planetA.mass + planetB.mass)
        = .ok ((planetA.velocity.mul planetA.mass
          + planetB.velocity.mul planetB.mass).divScalar (planetA.mass + planetB.mass)) := by
      unfold Vector3.truediv
      rw [if_neg htot]
    unfold handle_merge
    simp only [heavyPlanetEvent, CollisionEvent.init]
    rw [hveq, except_bind_ok]
    rw [if_neg (by
      rintro ⟨h, -⟩
      rw [hsA, hsB] at h
      simp at h)]
    rw [if_neg (by norm_num [planetA, planetB, CelestialBody.init] :
      ¬ planetB.mass < planetA.mass)]
    refine ⟨_, _, rfl, ?_, ?_, ?_⟩
    · rfl
    · show planetA.mass + planetB.mass = 5000
      norm_num [planetA, planetB, CelestialBody.init]
    · norm_num

/-- Witness for C4: two stars of mass 2500 each merge into a combined mass
of 5000 — above the supernova threshold, below the black-hole threshold —
and the resolver yields a Neutron Star remnant plus 3 fragments under the
low-end draw oracle. -/
theorem supernova_remnant_and_fragments_witness :
    lowDraws.Valid ∧
    (starMergeEvent.body1.is_star || starMergeEvent.body2.is_star) = true ∧
    (nameContains starMergeEvent.body1.name "black hole"
      || nameContains starMergeEvent.body1.name "neutron") = false ∧
    (nameContains starMergeEvent.body2.name "black hole"
      || nameContains starMergeEvent.body2.name "neutron") = false ∧
    SUPERNOVA_MASS_THRESHOLD < starMergeEvent.body1.mass + starMergeEvent.body2.mass ∧
    ∃ remnant frags ps',
      handle_merge lowDraws 1 starMergeEvent (ParticleSystem.init 100) =
        .ok (remnant :: frags, ps') ∧
      (BLACK_HOLE_MASS_THRESHOLD < starMergeEvent.body1.mass + starMergeEvent.body2.mass →
        remnant.name = "Black Hole" ∧
        remnant.mass = (starMergeEvent.body1.mass + starMergeEvent.body2.mass) * 0.4) ∧
      (¬ BLACK_HOLE_MASS_THRESHOLD < starMergeEvent.body1.mass + starMergeEvent.body2.mass →
        remnant.name = "Neutron Star" ∧
        remnant.mass = (starMergeEvent.body1.mass + starMergeEvent.body2.mass) * 0.3) ∧
      remnant.is_star = true ∧
      3 ≤ frags.length ∧ frags.length ≤ 6 ∧
      ∀ frag ∈ frags, frag.is_star = false := by
  have hstar : (starMergeEvent.body1.is_star || starMergeEvent.body2.is_star) = true := rfl
  have hex1 : (nameContains starMergeEvent.body1.name "black hole"
      || nameContains starMergeEvent.body1.name "neutron") = false := by decide
  have hex2 : (nameContains starMergeEvent.body2.name "black hole"
      || nameContains starMergeEvent.body2.name "neutron") = false := by decide
  have hmass : SUPERNOVA_MASS_THRESHOLD <
      starMergeEvent.body1.mass + starMergeEvent.body2.mass := by
    norm_num [SUPERNOVA_MASS_THRESHOLD, starMergeEvent, CollisionEvent.init,
      starA, starB, CelestialBody.init]
  exact ⟨lowDraws_valid, hstar, hex1, hex2, hmass,
    supernova_remnant_and_fragments lowDraws 1 starMergeEvent
      (ParticleSystem.init 100) lowDraws_valid hstar hex1 hex2 hmass⟩

/-! ## Collision-pass helper lemmas (C5) -/

theorem except_bind_eq_ok {α β : Type} (x : Except String α)
    (f : α → Except String β) (b : β) (h : (x >>= f) = .ok b) :
    ∃ a, x = .ok a ∧ f a = .ok b := by
  cases x with
  | error e => exact Except.noConfusion h
  | ok a => exact ⟨a, rfl, h⟩

theorem memObj_append (b : CelestialBody) (l1 l2 : List CelestialBody) :
    memObj b (l1 ++ l2) = (memObj b l1 || memObj b l2) := List.any_append ..

/-- A skipped event leaves the whole engine state untouched. -/
theorem handle_collision_skip (r : RandomDraws) (s : EngineState)
    (e : CollisionEvent) (h : skipsEvent s e = true) :
    handle_collision r s e = .ok s := by
  unfold handle_collision
  unfold skipsEvent at h
  rw [if_pos h]

/-- A resolved event appends exactly its two participants to the removal
buffer and never touches the roster. -/
theorem handle_collision_resolved (r : RandomDraws) (s : EngineState)
    (e : CollisionEvent) (s' : EngineState) (h : skipsEvent s e = false)
    (hok : handle_collision r s e = .ok s') :
    s'.toRemove = s.toRemove ++ [e.body1, e.body2] ∧ s'.bodies = s.bodies := by
  unfold handle_collision at hok
  rw [if_neg (by unfold skipsEvent at h; simp [h])] at hok
  cases hres : dispatch_handler r (s.collision_count + 1) e s.particles with
  | error err =>
    rw [hres] at hok
    exact Except.noConfusion hok
  | ok res =>
    rw [hres] at hok
    injection hok with h2
    rw [← h2]
    constructor <;> split <;> rfl

/-- During the per-frame resolution loop the roster is never modified. -/
theorem processEvents_bodies (r : RandomDraws) :
    ∀ (evs : List CollisionEvent) (s s' : EngineState),
      processEvents r s evs = .ok s' → s'.bodies = s.bodies := by
  intro evs
  induction evs with
  | nil =>
    intro s s' h
    unfold processEvents at h
    injection h with h2
    rw [← h2]
  | cons e rest ih =>
    intro s s' h
    unfold processEvents at h
    rw [List.foldlM_cons] at h
    obtain ⟨s1, hres, hrest⟩ := except_bind_eq_ok _ _ _ h
    have h1 : s1.bodies = s.bodies := by
      by_cases hskip : skipsEvent s e = true
      · rw [handle_collision_skip r s e hskip] at hres
        injection hres with h2
        rw [← h2]
      · exact (handle_collision_resolved r s e s1
          (Bool.not_eq_true _ ▸ hskip) hres).2
    have h2 : s'.bodies = s1.bodies := ih s1 s' hrest
    rw [h2, h1]

/-- No event resolved later in the frame can reference a body already in
the removal buffer. -/
theorem resolvedEvents_not_removed (r : RandomDraws) :
    ∀ (evs : List CollisionEvent) (s : EngineState) (b : CelestialBody),
      memObj b s.toRemove = true →
      ∀ e' ∈ resolvedEvents r s evs,
        e'.body1.oid ≠ b.oid ∧ e'.body2.oid ≠ b.oid := by
  intro evs
  induction evs with
  | nil =>
    intro s b hb e' he'
    simp [resolvedEvents] at he'
  | cons e rest ih =>
    intro s b hb e' he'
    rw [resolvedEvents] at he'
    by_cases hskip : skipsEvent s e = true
    · rw [if_pos hskip] at he'
      exact ih s b hb e' he'
    · rw [if_neg hskip] at he'
      have hsk : skipsEvent s e = false := Bool.not_eq_true _ ▸ hskip
      have hnot1 : memObj e.body1 s.toRemove = false := by
        unfold skipsEvent at hsk
        exact (Bool.or_eq_false_iff.mp hsk).1
      have hnot2 : memObj e.body2 s.toRemove = false := by
        unfold skipsEvent at hsk
        exact (Bool.or_eq_false_iff.mp hsk).2
      have hne : ∀ c : CelestialBody, memObj c s.toRemove = false →
          c.oid ≠ b.oid := by
        intro c hc hcb
        have : memObj c s.toRemove = memObj b s.toRemove := by
          unfold memObj
          rw [hcb]
        rw [this, hb] at hc
        exact Bool.noConfusion hc
      rcases List.mem_cons.mp he' with rfl | htail
      · exact ⟨hne _ hnot1, hne _ hnot2⟩
      · cases hres : handle_collision r s e with
        | ok s1 =>
          rw [hres] at htail
          have htail2 : e' ∈ resolvedEvents r s1 rest := htail
          have hb1 : memObj b s1.toRemove = true := by
            rw [(handle_collision_resolved r s e s1 hsk hres).1, memObj_append, hb]
            rfl
          exact ih s1 b hb1 e' htail2
        | error err =>
          rw [hres] at htail
          exact absurd htail (List.not_mem_nil e')

/-- Resolved events of one frame are pairwise disjoint in their
participants: each body takes part in at most one resolved collision. -/
theorem resolvedEvents_pairwise (r : RandomDraws) :
    ∀ (evs : List CollisionEvent) (s : EngineState),
      List.Pairwise eventDisjoint (resolvedEvents r s evs) := by
  intro evs
  induction evs with
  | nil => intro s; rw [resolvedEvents]; exact List.Pairwise.nil
  | cons e rest ih =>
    intro s
    rw [resolvedEvents]
    by_cases hskip : skipsEvent s e = true
    · rw [if_pos hskip]
      exact ih s
    · rw [if_neg hskip]
      have hsk : skipsEvent s e = false := Bool.not_eq_true _ ▸ hskip
      cases hres : handle_collision r s e with
      | ok s1 =>
        refine List.Pairwise.cons ?_ (ih s1)
        intro e' he'
        have he'2 : e' ∈ resolvedEvents r s1 rest := he'
        have hremoved := (handle_collision_resolved r s e s1 hsk hres).1
        have hb1 : memObj e.body1 s1.toRemove = true := by
          rw [hremoved, memObj_append]
          have : memObj e.body1 [e.body1, e.body2] = true := by
            unfold memObj
            simp
          rw [this, Bool.or_true]
        have hb2 : memObj e.body2 s1.toRemove = true := by
          rw [hremoved, memObj_append]
          have : memObj e.body2 [e.body1, e.body2] = true := by
            unfold memObj
            simp
          rw [this, Bool.or_true]
        have h1 := resolvedEvents_not_removed r rest s1 e.body1 hb1 e' he'2
        have h2 := resolvedEvents_not_removed r rest s1 e.body2 hb2 e' he'2
        exact ⟨Ne.symm h1.1, Ne.symm h1.2, Ne.symm h2.1, Ne.symm h2.2⟩
      | error err =>
        exact List.pairwise_singleton _ _

/-- C5: within one frame's collision pass, an event whose participant is
already in the to-be-removed buffer is silently ignored — the engine state
(roster, buffers, counter, particles, callback log) is returned unchanged;
the roster is never modified during the resolution loop (additions and
removals apply only in `apply_pending_changes`, after the full pass); and
the resolved events of a frame are pairwise disjoint, so each body
participates in at most one resolved collision per frame. -/
theorem collision_pass_at_most_once :
    (∀ (r : RandomDraws) (s : EngineState) (e : CollisionEvent),
      skipsEvent s e = true → handle_collision r s e = .ok s) ∧
    (∀ (r : RandomDraws) (evs : List CollisionEvent) (s s' : EngineState),
      processEvents r s evs = .ok s' → s'.bodies = s.bodies) ∧
    (∀ (r : RandomDraws) (evs : List CollisionEvent) (s : EngineState),
      List.Pairwise eventDisjoint (resolvedEvents r s evs)) ∧
    (∀ (r : RandomDraws) (s : EngineState),
      collision_pass r s = detect_collisions s >>= fun evs =>
        processEvents r s evs >>= fun s2 => .ok (apply_pending_changes s2)) :=
  ⟨handle_collision_skip, processEvents_bodies, resolvedEvents_pairwise,
    fun _ _ => rfl⟩

/-- Witness for C5: an event naming the already-marked `probeA` is skipped
and the concrete state comes back untouched. -/
theorem collision_pass_at_most_once_witness :
    skipsEvent skipState skipEvent = true ∧
    handle_collision lowDraws skipState skipEvent = .ok skipState := by
  have hsk : skipsEvent skipState skipEvent = true := by decide
  exact ⟨hsk, collision_pass_at_most_once.1 lowDraws skipState skipEvent hsk⟩

/-! ## Plain-merge helper lemma (C3) -/

/-- A plain merge (supernova path not taken) schedules exactly one body
with summed mass, momentum-conserving velocity, volume-additive radius
(π cancels out of the code's volume computation) and the larger parent's
name with the `+` marker. -/
theorem handle_merge_plain (r : RandomDraws) (cc : ℕ) (e : CollisionEvent)
    (ps : ParticleSystem) (htot : e.body1.mass + e.body2.mass ≠ 0)
    (hno : ¬ ((e.body1.is_star || e.body2.is_star) = true ∧
      (nameContains e.body1.name "black hole"
        || nameContains e.body1.name "neutron") = false ∧
      (nameContains e.body2.name "black hole"
        || nameContains e.body2.name "neutron") = false ∧
      SUPERNOVA_MASS_THRESHOLD < e.body1.mass + e.body2.mass)) :
    ∃ merged ps', handle_merge r cc e ps = .ok ([merged], ps') ∧
      merged.mass = e.body1.mass + e.body2.mass ∧
      merged.velocity = (e.body1.velocity.mul e.body1.mass
        + e.body2.velocity.mul e.body2.mass).divScalar (e.body1.mass + e.body2.mass) ∧
      merged.radius = (e.body1.radius ^ 3 + e.body2.radius ^ 3) ^ ((1 : ℝ) / 3) ∧
      merged.name = (if e.body2.mass < e.body1.mass then e.body1
        else e.body2).name ++ "+" ∧
      merged.is_star = (e.body1.is_star || e.body2.is_star) ∧
      merged.position = e.position := by
  have hveq : (e.body1.velocity.mul e.body1.mass
      + e.body2.velocity.mul e.body2.mass).truediv (e.body1.mass + e.body2.mass)
      = .ok ((e.body1.velocity.mul e.body1.mass
        + e.body2.velocity.mul e.body2.mass).divScalar (e.body1.mass + e.body2.mass)) := by
    unfold Vector3.truediv
    rw [if_neg htot]
  unfold handle_merge
  dsimp only
  rw [hveq, except_bind_ok]
  rw [if_neg hno]
  refine ⟨_, _, rfl, rfl, rfl, ?_, rfl, rfl, rfl⟩
  show (4 / 3 * Real.pi * (e.body1.radius ^ 3 + e.body2.radius ^ 3) * 3
    / (4 * Real.pi)) ^ ((1 : ℝ) / 3)
    = (e.body1.radius ^ 3 + e.body2.radius ^ 3) ^ ((1 : ℝ) / 3)
  congr 1
  field_simp

theorem mergeScenario_detect :
    detect_collisions mergeScenarioState = .ok [mergeScenarioEvent] := by
  have hiv : (planetBody.velocity.sub sunBody.velocity).magnitude = 0 := by
    simp only [planetBody, sunBody, CelestialBody.init, Vector3.sub,
      Vector3.magnitude, Vector3.zero]
    norm_num
  have hpos : (sunBody.position.mul planetBody.mass
      + planetBody.position.mul sunBody.mass).divScalar
      (sunBody.mass + planetBody.mass) = ⟨1 / 3, 0, 0⟩ := by
    simp only [planetBody, sunBody, CelestialBody.init, Vector3.mul,
      Vector3.add_def, Vector3.divScalar, Vector3.zero]
    ext <;> norm_num
  have htot : sunBody.mass + planetBody.mass ≠ 0 := by
    norm_num [sunBody, planetBody, CelestialBody.init]
  have hveq : (sunBody.position.mul planetBody.mass
      + planetBody.position.mul sunBody.mass).truediv
      (sunBody.mass + planetBody.mass)
      = .ok (⟨1 / 3, 0, 0⟩ : Vector3) := by
    unfold Vector3.truediv
    rw [if_neg htot, hpos]
  have hdist : (planetBody.position.sub sunBody.position).magnitude = 1 := by
    simp only [planetBody, sunBody, CelestialBody.init, Vector3.sub,
      Vector3.magnitude, Vector3.zero]
    norm_num
  unfold detect_collisions
  rw [show mergeScenarioState.bodies = [sunBody, planetBody] from rfl,
    show mergeScenarioState.toRemove = ([] : List CelestialBody) from rfl,
    show ([sunBody, planetBody] : List CelestialBody).length = 2 from rfl,
    show pairIndices 2 = [(0, 1)] from rfl,
    List.foldlM_cons]
  dsimp only
  rw [show ([sunBody, planetBody] : List CelestialBody)[(0 : ℕ)]? = some sunBody from rfl,
    show ([sunBody, planetBody] : List CelestialBody)[(1 : ℕ)]? = some planetBody from rfl]
  dsimp only
  rw [if_neg (by decide), if_pos (by
    rw [hdist]
    norm_num [sunBody, planetBody, CelestialBody.init])]
  rw [hveq, except_bind_ok, except_bind_ok, List.foldlM_nil, List.nil_append, hiv]
  rfl

theorem mergeScenarioEvent_type : mergeScenarioEvent.collision_type = "merge" := by
  show collision_type_of sunBody planetBody 0 = "merge"
  have n1 : nameContains sunBody.name "black hole" = false := by decide
  have n2 : nameContains planetBody.name "black hole" = false := by decide
  have n3 : nameContains sunBody.name "neutron" = false := by decide
  have n4 : nameContains planetBody.name "neutron" = false := by decide
  unfold collision_type_of
  simp only [n1, n2, n3, n4, show sunBody.is_star = true from rfl,
    show planetBody.is_star = false from rfl]
  norm_num

/-- C3: a collision resolved as a plain merge (supernova path not taken)
schedules exactly one merged body with summed mass, momentum-conserving
velocity `(m₁v₁+m₂v₂)/(m₁+m₂)`, volume-additive radius `(r₁³+r₂³)^(1/3)`
and the larger parent's name with the `+` marker, while `handle_collision`
marks both parents for removal; in particular the concrete Sun/planet
overlap with zero velocities resolves, through the full detect–resolve–
apply pass, to a roster holding exactly one such merged body. -/
theorem merge_schedules_single_body :
    (∀ (r : RandomDraws) (cc : ℕ) (e : CollisionEvent) (ps : ParticleSystem),
      e.body1.mass + e.body2.mass ≠ 0 →
      ¬ ((e.body1.is_star || e.body2.is_star) = true ∧
        (nameContains e.body1.name "black hole"
          || nameContains e.body1.name "neutron") = false ∧
        (nameContains e.body2.name "black hole"
          || nameContains e.body2.name "neutron") = false ∧
        SUPERNOVA_MASS_THRESHOLD < e.body1.mass + e.body2.mass) →
      (∃ merged ps', handle_merge r cc e ps = .ok ([merged], ps') ∧
        merged.mass = e.body1.mass + e.body2.mass ∧
        merged.velocity = (e.body1.velocity.mul e.body1.mass
          + e.body2.velocity.mul e.body2.mass).divScalar
          (e.body1.mass + e.body2.mass) ∧
        merged.radius = (e.body1.radius ^ 3 + e.body2.radius ^ 3) ^ ((1 : ℝ) / 3) ∧
        merged.name = (if e.body2.mass < e.body1.mass then e.body1
          else e.body2).name ++ "+" ∧
        merged.is_star = (e.body1.is_star || e.body2.is_star)) ∧
      (∀ (s s' : EngineState), skipsEvent s e = false →
        handle_collision r s e = .ok s' →
        s'.toRemove = s.toRemove ++ [e.body1, e.body2])) ∧
    (∃ sfin, collision_pass lowDraws mergeScenarioState = .ok sfin ∧
      ∃ m, sfin.bodies = [m] ∧
        m.mass = 30 ∧
        m.velocity = Vector3.zero ∧
        m.is_star = true ∧
        m.name = "P+" ∧
        m.radius = (sunBody.radius ^ 3 + planetBody.radius ^ 3) ^ ((1 : ℝ) / 3)) := by
  constructor
  · intro r cc e ps htot hno
    refine ⟨?_, ?_⟩
    · obtain ⟨merged, ps', h1, h2, h3, h4, h5, h6, _⟩ :=
        handle_merge_plain r cc e ps htot hno
      exact ⟨merged, ps', h1, h2, h3, h4, h5, h6⟩
    · intro s s' hsk hok
      exact (handle_collision_resolved r s e s' hsk hok).1
  · -- concrete end-to-end scenario
    have htot : mergeScenarioEvent.body1.mass + mergeScenarioEvent.body2.mass ≠ 0 := by
      show sunBody.mass + planetBody.mass ≠ 0
      norm_num [sunBody, planetBody, CelestialBody.init]
    have hno : ¬ ((mergeScenarioEvent.body1.is_star
        || mergeScenarioEvent.body2.is_star) = true ∧
        (nameContains mergeScenarioEvent.body1.name "black hole"
          || nameContains mergeScenarioEvent.body1.name "neutron") = false ∧
        (nameContains mergeScenarioEvent.body2.name "black hole"
          || nameContains mergeScenarioEvent.body2.name "neutron") = false ∧
        SUPERNOVA_MASS_THRESHOLD <
          mergeScenarioEvent.body1.mass + mergeScenarioEvent.body2.mass) := by
      rintro ⟨-, -, -, h⟩
      have : SUPERNOVA_MASS_THRESHOLD < sunBody.mass + planetBody.mass := h
      norm_num [SUPERNOVA_MASS_THRESHOLD, sunBody, planetBody,
        CelestialBody.init] at this
    obtain ⟨merged, ps', hmeq, hmass, hvel, hrad, hname, hstar, _⟩ :=
      handle_merge_plain lowDraws 1 mergeScenarioEvent
        mergeScenarioState.particles htot hno
    have hdisp : dispatch_handler lowDraws 1 mergeScenarioEvent
        mergeScenarioState.particles
        = handle_merge lowDraws 1 mergeScenarioEvent mergeScenarioState.particles := by
      unfold dispatch_handler
      rw [mergeScenarioEvent_type]
      rw [if_neg (by decide), if_neg (by decide), if_neg (by decide),
        if_neg (by decide), if_neg (by decide)]
    have hhc : handle_collision lowDraws mergeScenarioState mergeScenarioEvent
        = .ok { mergeScenarioState with
            toRemove := mergeScenarioState.toRemove
              ++ [mergeScenarioEvent.body1, mergeScenarioEvent.body2],
            collision_count := mergeScenarioState.collision_count + 1,
            toAdd := mergeScenarioState.toAdd ++ [merged], particles := ps' } := by
      unfold handle_collision
      rw [if_neg (by decide)]
      rw [show mergeScenarioState.collision_count + 1 = 1 from rfl]
      rw [hdisp, hmeq]
      dsimp only
      rw [if_neg (by decide)]
    have hproc : processEvents lowDraws mergeScenarioState [mergeScenarioEvent]
        = .ok { mergeScenarioState with
            toRemove := mergeScenarioState.toRemove
              ++ [mergeScenarioEvent.body1, mergeScenarioEvent.body2],
            collision_count := mergeScenarioState.collision_count + 1,
            toAdd := mergeScenarioState.toAdd ++ [merged], particles := ps' } := by
      unfold processEvents
      rw [List.foldlM_cons, hhc, except_bind_ok, List.foldlM_nil]
      rfl
    refine ⟨apply_pending_changes { mergeScenarioState with
        toRemove := mergeScenarioState.toRemove
          ++ [mergeScenarioEvent.body1, mergeScenarioEvent.body2],
        collision_count := mergeScenarioState.collision_count + 1,
        toAdd := mergeScenarioState.toAdd ++ [merged], particles := ps' },
      ?_, merged, ?_, ?_, ?_, ?_, ?_, ?_⟩
    · unfold collision_pass
      rw [mergeScenario_detect, except_bind_ok, hproc, except_bind_ok]
    · rfl
    · rw [hmass]
      show sunBody.mass + planetBody.mass = 30
      norm_num [sunBody, planetBody, CelestialBody.init]
    · rw [hvel]
      show (sunBody.velocity.mul sunBody.mass
        + planetBody.velocity.mul planetBody.mass).divScalar
        (sunBody.mass + planetBody.mass) = Vector3.zero
      simp only [sunBody, planetBody, CelestialBody.init, Vector3.mul,
        Vector3.add_def, Vector3.divScalar, Vector3.zero]
      ext <;> norm_num
    · rw [hstar]
      rfl
    · rw [hname]
      rw [if_neg (by
        show ¬ planetBody.mass < sunBody.mass
        norm_num [sunBody, planetBody, CelestialBody.init])]
      rfl
    · exact hrad

/-- Witness for C3: the merge hypotheses hold at the concrete Sun/planet
event, and the general plain-merge conclusion follows there. -/
theorem merge_schedules_single_body_witness :
    mergeScenarioEvent.body1.mass + mergeScenarioEvent.body2.mass ≠ 0 ∧
    (¬ ((mergeScenarioEvent.body1.is_star
        || mergeScenarioEvent.body2.is_star) = true ∧
      (nameContains mergeScenarioEvent.body1.name "black hole"
        || nameContains mergeScenarioEvent.body1.name "neutron") = false ∧
      (nameContains mergeScenarioEvent.body2.name "black hole"
        || nameContains mergeScenarioEvent.body2.name "neutron") = false ∧
      SUPERNOVA_MASS_THRESHOLD <
        mergeScenarioEvent.body1.mass + mergeScenarioEvent.body2.mass)) ∧
    (∃ merged ps', handle_merge lowDraws 1 mergeScenarioEvent
        (ParticleSystem.init 10000) = .ok ([merged], ps') ∧
      merged.mass = mergeScenarioEvent.body1.mass + mergeScenarioEvent.body2.mass ∧
      merged.velocity = (mergeScenarioEvent.body1.velocity.mul
          mergeScenarioEvent.body1.mass
        + mergeScenarioEvent.body2.velocity.mul mergeScenarioEvent.body2.mass).divScalar
        (mergeScenarioEvent.body1.mass + mergeScenarioEvent.body2.mass) ∧
      merged.radius = (mergeScenarioEvent.body1.radius ^ 3
        + mergeScenarioEvent.body2.radius ^ 3) ^ ((1 : ℝ) / 3) ∧
      merged.name = (if mergeScenarioEvent.body2.mass < mergeScenarioEvent.body1.mass
        then mergeScenarioEvent.body1 else mergeScenarioEvent.body2).name ++ "+" ∧
      merged.is_star = (mergeScenarioEvent.body1.is_star
        || mergeScenarioEvent.body2.is_star)) := by
  have htot : mergeScenarioEvent.body1.mass + mergeScenarioEvent.body2.mass ≠ 0 := by
    show sunBody.mass + planetBody.mass ≠ 0
    norm_num [sunBody, planetBody, CelestialBody.init]
  have hno : ¬ ((mergeScenarioEvent.body1.is_star
      || mergeScenarioEvent.body2.is_star) = true ∧
      (nameContains mergeScenarioEvent.body1.name "black hole"
        || nameContains mergeScenarioEvent.body1.name "neutron") = false ∧
      (nameContains mergeScenarioEvent.body2.name "black hole"
        || nameContains mergeScenarioEvent.body2.name "neutron") = false ∧
      SUPERNOVA_MASS_THRESHOLD <
        mergeScenarioEvent.body1.mass + mergeScenarioEvent.body2.mass) := by
    rintro ⟨-, -, -, h⟩
    have : SUPERNOVA_MASS_THRESHOLD < sunBody.mass + planetBody.mass := h
    norm_num [SUPERNOVA_MASS_THRESHOLD, sunBody, planetBody,
      CelestialBody.init] at this
  exact ⟨htot, hno,
    (merge_schedules_single_body.1 lowDraws 1 mergeScenarioEvent
      (ParticleSystem.init 10000) htot hno).1⟩

end SpaceEngine
